import Mathlib

/-!
# Verification of the Space Switch Tool's transition-baking core

This file embeds the algorithmic core of `space_switch_tool.py` — the
space-switch / IK-FK-switch transition baking methods of the
`SpaceSwitchTool` class and the module-level helpers they call — as
executable Lean definitions over an abstract animated scene, and proves
the specified properties about them.

## The abstract scene model

The Maya host is modelled as:

* an `Env`: the immutable collaborator data — node classification
  (`isTransform`, `objExists`, `attrExists`, `nodeType`), the rig's pose
  evaluation function `anim` (world pose of every node as a function of
  the time cursor and the current attribute values), the constraint
  probe, the initial keyframe-time query, the current selection, the
  playback range, the rotate-order table, and a fault-injection point
  `failAt` modelling a host exception on the n-th mutating call;
* a `SceneState`: the mutable state — the time cursor, the attribute
  values, per-node world pose overrides (a world-space `xform` write
  pins a node's translation / rotation until the next time change
  re-evaluates the scene from its animation), an event trace recording
  every scene-mutating or user-facing call, and a count of mutating
  calls performed (driving `failAt`).

Queried world poses are `worldOf`: the override if one is pending,
otherwise the rig evaluation `anim` at the current time and attribute
values, mirroring Maya's pull evaluation (an attribute edit is visible
to the next world-space query; a time change discards un-keyed pose
writes).  Fallible computations return `Except SceneState SceneState`:
the error branch carries the state at the point the host exception was
raised, so `try/finally` cleanup can be modelled faithfully.
-/

set_option autoImplicit false

namespace SpaceSwitchTool

/-- Node names (Maya node path strings). -/
abbrev Node := String

/-- A 3-vector of scene coordinates (world translation or Euler rotation). -/
abbrev Vec3 := ℚ × ℚ × ℚ

/-- A world-space pose: position and rotation, as queried/applied by
`get_world_matrix` / `apply_world_matrix`. -/
structure Pose where
  pos : Vec3
  rot : Vec3
deriving DecidableEq, Repr

/-- A `node.attribute` plug, kept structured instead of the Python
dotted string (the source splits the string on the dot). -/
structure Plug where
  node : Node
  attr : String
deriving DecidableEq, Repr

/-- A loaded attribute entry: the 2-element `[plug-string, value]` list the
tool stores for "source space", "target space", "fk switch", and so on. -/
structure AttrVal where
  plug : Plug
  value : ℚ
deriving DecidableEq, Repr

/-- One observable call against the host scene.  Mutating calls, the
undo-chunk / viewport resource calls and `double_warning` pop-ups are
recorded; pure queries are not. -/
inductive Event where
  /-- `cmds.currentTime(t, edit=True)` -/
  | curTime (t : ℚ)
  /-- `cmds.setAttr(plug, v)` -/
  | setAttr (p : Plug) (v : ℚ)
  /-- `cmds.setKeyframe(plug)` on a scalar driver attribute; records the
  time cursor and the attribute value at the moment the key is set. -/
  | setKeyAttr (p : Plug) (t : ℚ) (v : ℚ)
  /-- `cmds.setKeyframe(node.channel, time=(t, t))` issued by
  `create_transform_keys` on one of the nine transform channels. -/
  | keyChannel (n : Node) (ch : String) (t : ℚ)
  /-- `cmds.xform(n, translation=v, worldSpace=True)` -/
  | xformT (n : Node) (v : Vec3)
  /-- `cmds.xform(n, rotation=v, worldSpace=True)` -/
  | xformR (n : Node) (v : Vec3)
  /-- one `constrain_move_key` probe (locator + temporary constraint,
  sampled and deleted); records the probed pose. -/
  | probe (driver driven : Node) (result : Pose)
  /-- `double_warning(msg)` -/
  | warn (msg : String)
  /-- `cmds.undoInfo(openChunk=True)` -/
  | openChunk
  /-- `cmds.undoInfo(closeChunk=True)` -/
  | closeChunk
  /-- `lock_viewport()` -/
  | lockViewport
  /-- `unlock_viewport()` -/
  | unlockViewport
deriving DecidableEq, Repr

namespace Event

/-- Scene-mutating calls: attribute writes, keyframe writes, world-space
`xform` writes, time-cursor edits and constraint probes. -/
def isMutation : Event → Bool
  | curTime _ => true
  | setAttr _ _ => true
  | setKeyAttr _ _ _ => true
  | keyChannel _ _ _ => true
  | xformT _ _ => true
  | xformR _ _ => true
  | probe _ _ _ => true
  | _ => false

/-- The two scoped process-wide resources: the undo chunk and the
viewport lock. -/
def isResource : Event → Bool
  | openChunk => true
  | closeChunk => true
  | lockViewport => true
  | unlockViewport => true
  | _ => false

/-- The time a keyframe event writes at, `none` for non-keyframe events. -/
def keyTime : Event → Option ℚ
  | setKeyAttr _ t _ => some t
  | keyChannel _ _ t => some t
  | _ => none

/-- World-space translation writes (`cmds.xform(..., translation=...)`). -/
def isXformT : Event → Bool
  | xformT _ _ => true
  | _ => false

/-- Constraint-probe events. -/
def isProbe : Event → Bool
  | probe _ _ _ => true
  | _ => false

end Event

/-- The immutable host collaborator (the abstract `AnimatedScene`). -/
structure Env where
  /-- does `cmds.ls(n, type="transform")` match (joints included)? -/
  isTransform : Node → Bool
  /-- `cmds.objExists` -/
  objExists : Node → Bool
  /-- `cmds.attributeQuery(attr, node=n, exists=True)` -/
  attrExists : Node → String → Bool
  /-- `cmds.nodeType` (the exact type tag) -/
  nodeType : Node → String
  /-- `cmds.xform(n, query=True, rotateOrder=True)` -/
  rotOrder : Node → ℕ
  /-- the rig: world pose of every node given the time cursor and the
  current attribute values -/
  anim : ℚ → (Plug → ℚ) → Node → Pose
  /-- result of the temporary-constraint probe of `constrain_move_key`,
  given the time, attribute values and current world poses -/
  probeF : ℚ → (Plug → ℚ) → (Node → Pose) → Node → Node → Pose
  /-- `cmds.keyframe(nodes, query=True, timeChange=True)` at entry
  (`[]` stands for the query's `None` result) -/
  keyTimes : List Node → List ℚ
  /-- `cmds.ls(selection=True)` (the `create_transform_keys` fallback) -/
  selection : List Node
  /-- `cmds.playbackOptions(query=True, minTime=True)` -/
  playbackMin : ℚ
  /-- `cmds.playbackOptions(query=True, maxTime=True)` -/
  playbackMax : ℚ
  /-- the user's answer to the rotate-order-mismatch dialog
  (`True` = Yes, continue anyway) -/
  proceedOnMismatch : Bool
  /-- fault injection: the host raises on the n-th mutating call,
  `none` for a host that never fails -/
  failAt : Option ℕ

/-- The mutable scene state plus the recorded call trace. -/
@[ext] structure SceneState where
  /-- the time cursor -/
  time : ℚ
  /-- current attribute values -/
  attrs : Plug → ℚ
  /-- pending world-translation overrides from `xform` writes -/
  posOv : Node → Option Vec3
  /-- pending world-rotation overrides from `xform` writes -/
  rotOv : Node → Option Vec3
  /-- the recorded call trace -/
  trace : List Event
  /-- number of mutating calls performed so far (drives `Env.failAt`) -/
  muts : ℕ

/-- The world pose a query sees, from the four pose-relevant state
components: pending override components win, otherwise the rig
evaluation at the current time and attributes. -/
def worldAt (env : Env) (t : ℚ) (a : Plug → ℚ) (p r : Node → Option Vec3) (n : Node) : Pose :=
  { pos := (p n).getD (env.anim t a n).pos
    rot := (r n).getD (env.anim t a n).rot }

/-- The world pose a query sees in a scene state. -/
def worldOf (env : Env) (s : SceneState) (n : Node) : Pose :=
  worldAt env s.time s.attrs s.posOv s.rotOv n

/-- Append one recorded event (used for non-mutating observable calls:
warnings, undo chunk, viewport lock). -/
def SceneState.withEvent (s : SceneState) (e : Event) : SceneState :=
  { s with trace := s.trace ++ [e] }

/-- Pointwise function update on attribute values. -/
def updA (f : Plug → ℚ) (p : Plug) (v : ℚ) : Plug → ℚ :=
  fun q => if q = p then v else f q

/-- Pointwise function update on override tables. -/
def updO (f : Node → Option Vec3) (n : Node) (v : Vec3) : Node → Option Vec3 :=
  fun m => if m = n then some v else f m

/-- Sequencing of fallible scene computations (`Except` bind; the error
branch carries the state at the raise, Python exception style). -/
def bindE {α β : Type} (r : Except SceneState α) (f : α → Except SceneState β) :
    Except SceneState β :=
  match r with
  | .error s => .error s
  | .ok a => f a

@[simp] theorem bindE_ok {α β : Type} (a : α) (f : α → Except SceneState β) :
    bindE (.ok a) f = f a := rfl

@[simp] theorem bindE_error {α β : Type} (s : SceneState) (f : α → Except SceneState β) :
    bindE (.error s) f = .error s := rfl

/-- One mutating host call: raises if the fault-injection point is hit,
otherwise applies the field update, records the event and counts the call. -/
def mutStep (env : Env) (e : Event) (f : SceneState → SceneState) (s : SceneState) :
    Except SceneState SceneState :=
  if env.failAt = some s.muts then .error s
  else
    let s' := f s
    .ok { s' with trace := s.trace ++ [e], muts := s.muts + 1 }

/-- `cmds.currentTime(t, edit=True)`: moves the cursor and re-evaluates
every pose from the animation (pending `xform` overrides are discarded). -/
def doCurrentTime (env : Env) (t : ℚ) (s : SceneState) : Except SceneState SceneState :=
  mutStep env (.curTime t)
    (fun s => { s with time := t, posOv := fun _ => none, rotOv := fun _ => none }) s

/-- `cmds.setAttr(p, v)`. -/
def doSetAttr (env : Env) (p : Plug) (v : ℚ) (s : SceneState) : Except SceneState SceneState :=
  mutStep env (.setAttr p v) (fun s => { s with attrs := updA s.attrs p v }) s

/-- `cmds.setKeyframe(p)` on a scalar driver attribute: keys the current
value at the current time. -/
def doSetKeyframe (env : Env) (p : Plug) (s : SceneState) : Except SceneState SceneState :=
  mutStep env (.setKeyAttr p s.time (s.attrs p)) id s

/-- `cmds.setKeyframe(n.ch, time=(t, t))` on a transform channel. -/
def doKeyChannel (env : Env) (n : Node) (ch : String) (t : ℚ) (s : SceneState) :
    Except SceneState SceneState :=
  mutStep env (.keyChannel n ch t) id s

/-- `cmds.xform(n, translation=v, worldSpace=True)`. -/
def doXformT (env : Env) (n : Node) (v : Vec3) (s : SceneState) : Except SceneState SceneState :=
  mutStep env (.xformT n v) (fun s => { s with posOv := updO s.posOv n v }) s

/-- `cmds.xform(n, rotation=v, worldSpace=True)`. -/
def doXformR (env : Env) (n : Node) (v : Vec3) (s : SceneState) : Except SceneState SceneState :=
  mutStep env (.xformR n v) (fun s => { s with rotOv := updO s.rotOv n v }) s

/-- `get_world_matrix(ctl)`: returns the world position and rotation if
`ctl` is a transform, `None, None` otherwise (modelled as one `Option`
since the source returns both or neither).  A pure query. -/
def get_world_matrix (env : Env) (s : SceneState) (ctl : Node) : Option Pose :=
  if env.isTransform ctl then some (worldOf env s ctl) else none

/-- `apply_world_matrix(ctl, pos, rot)`: world-space translation write
followed by the rotation write, guarded by the same transform check as
the source; passing the `None` pose of a failed `get_world_matrix` to a
valid transform raises (as `cmds.xform(..., translation=None)` would). -/
def apply_world_matrix (env : Env) (ctl : Node) (mat : Option Pose) (s : SceneState) :
    Except SceneState SceneState :=
  if env.isTransform ctl then
    match mat with
    | some m => bindE (doXformT env ctl m.pos s) fun s => doXformR env ctl m.rot s
    | none => .error s
  else .ok s

/-- The nine channel flags of `create_transform_keys`. -/
structure ChanFlags where
  tx : Bool
  ty : Bool
  tz : Bool
  rx : Bool
  ry : Bool
  rz : Bool
  sx : Bool
  sy : Bool
  sz : Bool
deriving DecidableEq, Repr

/-- The channel/flag pairs of the source's `attr_dict`.  The Python dict
iteration order is unspecified; the embedding fixes the literal's order. -/
def chanPairs (fl : ChanFlags) : List (String × Bool) :=
  [("translateX", fl.tx), ("translateY", fl.ty), ("translateZ", fl.tz),
   ("rotateX", fl.rx), ("rotateY", fl.ry), ("rotateZ", fl.rz),
   ("scaleX", fl.sx), ("scaleY", fl.sy), ("scaleZ", fl.sz)]

/-- the `tx..tz, rx..rz` flag set used by the space-switch paths -/
def flagsTR : ChanFlags := ⟨true, true, true, true, true, true, false, false, false⟩

/-- the rotation-only flag set used on FK controls -/
def flagsR : ChanFlags := ⟨false, false, false, true, true, true, false, false, false⟩

/-- the translation-only flag set used on the IK elbow control -/
def flagsT : ChanFlags := ⟨true, true, true, false, false, false, false, false, false⟩

/-- inner loop of `create_transform_keys`: key each flagged channel of one
object at time `t`. -/
def keyChansLoop (env : Env) (o : Node) (t : ℚ) :
    List (String × Bool) → SceneState → Except SceneState SceneState
  | [], s => .ok s
  | (ch, b) :: rest, s =>
    if b then bindE (doKeyChannel env o ch t s) (keyChansLoop env o t rest)
    else keyChansLoop env o t rest s

/-- outer loop of `create_transform_keys` over the object list. -/
def keyObjsLoop (env : Env) (t : ℚ) (fl : ChanFlags) :
    List Node → SceneState → Except SceneState SceneState
  | [], s => .ok s
  | o :: os, s => bindE (keyChansLoop env o t (chanPairs fl) s) (keyObjsLoop env t fl os)

/-- `create_transform_keys(objects, time, flags)`: filters the object list
through `objExists` (`filter_invalid_objects`), falls back to the current
selection when the filter leaves nothing, logs-and-returns when both are
empty, and otherwise keys every flagged channel of every object at `time`
(the current time when `None` is given). -/
def create_transform_keys (env : Env) (objects : List Node) (time : Option ℚ)
    (fl : ChanFlags) (s : SceneState) : Except SceneState SceneState :=
  let objs := objects.filter env.objExists
  let objs := if objs.isEmpty then env.selection else objs
  if objs.isEmpty then .ok s
  else keyObjsLoop env (time.getD s.time) fl objs s

/-- `SpaceSwitchTool.set_space_switch(frame, ctl, source_space,
source_value, target_space, target_value)`: the single CurrentFrame
boundary switch.  Capture the world pose at `frame`, step to `frame - 1`
and key the source driver plus the control's six channels, return to
`frame`, key the target driver, force the captured pose back on and
re-key the six channels. -/
def set_space_switch (env : Env) (frame : ℚ) (ctl : Node)
    (source_space : Plug) (source_value : ℚ)
    (target_space : Plug) (target_value : ℚ) (s : SceneState) :
    Except SceneState SceneState :=
  bindE (doCurrentTime env frame s) fun s =>
  let mat := get_world_matrix env s ctl
  let prev_frame := frame - 1
  bindE (doCurrentTime env prev_frame s) fun s =>
  bindE (doSetAttr env source_space source_value s) fun s =>
  bindE (doSetKeyframe env source_space s) fun s =>
  bindE (create_transform_keys env [ctl] none flagsTR s) fun s =>
  bindE (doCurrentTime env frame s) fun s =>
  bindE (doSetAttr env target_space target_value s) fun s =>
  bindE (doSetKeyframe env target_space s) fun s =>
  bindE (apply_world_matrix env ctl mat s) fun s =>
  create_transform_keys env [ctl] none flagsTR s

/-- The six `keyChannel` events `create_transform_keys` emits for one
object with the `tx..tz, rx..rz` flags, in the `attr_dict` order. -/
def keyChanTrace (n : Node) (t : ℚ) : List Event :=
  [.keyChannel n "translateX" t, .keyChannel n "translateY" t, .keyChannel n "translateZ" t,
   .keyChannel n "rotateX" t, .keyChannel n "rotateY" t, .keyChannel n "rotateZ" t]

/-- The event trace of one `set_space_switch` call at `frame`, for a
valid control whose captured world pose is `m`. -/
def ssTrace (ctl : Node) (sp : Plug) (sv : ℚ) (tp : Plug) (tv : ℚ) (frame : ℚ) (m : Pose) :
    List Event :=
  [.curTime frame, .curTime (frame - 1), .setAttr sp sv, .setKeyAttr sp (frame - 1) sv]
  ++ keyChanTrace ctl (frame - 1)
  ++ [.curTime frame, .setAttr tp tv, .setKeyAttr tp frame tv,
      .xformT ctl m.pos, .xformR ctl m.rot]
  ++ keyChanTrace ctl frame

/-- Closed form of a `set_space_switch` run on a host that does not
fail, for an existing transform control: the call succeeds and leaves
the time cursor at `frame`, the source and target drivers set, the
control's world pose pinned to the pose captured at `frame` under the
entry attribute values, and the full event trace appended. -/
theorem set_space_switch_run (env : Env) (frame : ℚ) (ctl : Node)
    (sp : Plug) (sv : ℚ) (tp : Plug) (tv : ℚ) (s : SceneState)
    (hF : env.failAt = none) (hT : env.isTransform ctl = true)
    (hE : env.objExists ctl = true) :
    set_space_switch env frame ctl sp sv tp tv s = .ok
      { time := frame
        attrs := updA (updA s.attrs sp sv) tp tv
        posOv := updO (fun _ => none) ctl (env.anim frame s.attrs ctl).pos
        rotOv := updO (fun _ => none) ctl (env.anim frame s.attrs ctl).rot
        trace := s.trace ++ ssTrace ctl sp sv tp tv frame (env.anim frame s.attrs ctl)
        muts := s.muts + 21 } := by
  simp [set_space_switch, doCurrentTime, doSetAttr, doSetKeyframe, doKeyChannel,
    doXformT, doXformR, mutStep, hF, create_transform_keys, keyObjsLoop, keyChansLoop,
    chanPairs, flagsTR, apply_world_matrix, get_world_matrix, hT, hE, worldOf, worldAt,
    updA, updO, ssTrace, keyChanTrace, List.filter]

/-- The bake-mode radio buttons. -/
inductive BakeMode where
  | currentFrame
  | bakeKeyframes
  | everyFrame
deriving DecidableEq, Repr

/-- The extra-option UI state a switch run reads: the bake mode, the
"set time range" checkbox and the two integer frame fields. -/
structure SpaceUI where
  mode : BakeMode
  useTimeRange : Bool
  startFrame : ℤ
  endFrame : ℤ
deriving DecidableEq, Repr

/-- `self._space_switch_data_dict`: the mode tag, the target control and
the two `[plug, value]` attribute entries ( `none` models the empty list
the UI stores for an entry that failed to load). -/
structure SpaceData where
  mode : String
  control : String
  source : Option AttrVal
  target : Option AttrVal
deriving DecidableEq, Repr

/-- `self._ikfk_switch_data_dict`. -/
structure IkfkData where
  mode : String
  shoulderJnt : String
  elbowJnt : String
  wristJnt : String
  fkShoulder : String
  fkElbow : String
  fkWrist : String
  fkSwitch : Option AttrVal
  fkVis : Option AttrVal
  ikElbow : String
  ikWrist : String
  ikSwitch : Option AttrVal
  ikVis : Option AttrVal
deriving DecidableEq, Repr

/-- `validate_switch_data`'s check of one attribute entry: a 2-element
`[plug, value]` list whose node still exists and still carries the
attribute (`none`, the empty list, is falsy and rejected). -/
def checkAttrEntry (env : Env) : Option AttrVal → Bool
  | some av => env.objExists av.plug.node && env.attrExists av.plug.node av.plug.attr
  | none => false

/-- `validate_switch_data`'s check of one control entry: a non-empty
string naming a node that still exists. -/
def checkControlEntry (env : Env) (c : String) : Bool :=
  (decide (c ≠ "")) && env.objExists c

/-- `validate_switch_data`'s check of the `"mode"` entry. -/
def checkModeEntry (m : String) : Bool :=
  (decide (m ≠ "")) && (m == "space switch" || m == "ikfk switch")

/-- `validate_switch_data("space switch")`: the key-set equality holds by
construction of the structured record; the per-key loop is the
conjunction of the per-entry checks (order-independent, so the
unspecified dict iteration order does not matter). -/
def validate_space_switch_data (env : Env) (d : SpaceData) : Bool :=
  checkModeEntry d.mode && checkControlEntry env d.control &&
  checkAttrEntry env d.source && checkAttrEntry env d.target

/-- `validate_switch_data("ikfk switch")`. -/
def validate_ikfk_switch_data (env : Env) (d : IkfkData) : Bool :=
  checkModeEntry d.mode &&
  checkControlEntry env d.shoulderJnt && checkControlEntry env d.elbowJnt &&
  checkControlEntry env d.wristJnt &&
  checkControlEntry env d.fkShoulder && checkControlEntry env d.fkElbow &&
  checkControlEntry env d.fkWrist &&
  checkControlEntry env d.ikElbow && checkControlEntry env d.ikWrist &&
  checkAttrEntry env d.fkSwitch && checkAttrEntry env d.fkVis &&
  checkAttrEntry env d.ikSwitch && checkAttrEntry env d.ikVis

/-- ordered insertion, for modelling Python's `list.sort()` -/
def insertSorted (x : ℚ) : List ℚ → List ℚ
  | [] => [x]
  | y :: ys => if x ≤ y then x :: y :: ys else y :: insertSorted x ys

/-- `keyframes = list(set(keyframes)); keyframes.sort()`: the deduplicated
key times in ascending order. -/
def sortTimes (l : List ℚ) : List ℚ := l.foldr insertSorted []

/-- Python `int()`: truncation toward zero. -/
def pyInt (q : ℚ) : ℤ := if q < 0 then ⌈q⌉ else ⌊q⌋

/-- Python `range(a, b)` as a list of frame numbers. -/
def pyRange (a b : ℤ) : List ℚ :=
  (List.range (b - a).toNat).map (fun i => ((a + i : ℤ) : ℚ))

/-- The pose-gathering loop shared by both bake branches: for each
sampled time, move there, set and key the source driver, and capture the
control's world pose (`matrixData`). -/
def captureLoop (env : Env) (sp : Plug) (sv : ℚ) (ctl : Node) :
    List ℚ → SceneState → Except SceneState (SceneState × List (Option Pose))
  | [], s => .ok (s, [])
  | k :: ks, s =>
    bindE (doCurrentTime env k s) fun s =>
    bindE (doSetAttr env sp sv s) fun s =>
    bindE (doSetKeyframe env sp s) fun s =>
    let m := get_world_matrix env s ctl
    bindE (captureLoop env sp sv ctl ks s) fun r => .ok (r.1, m :: r.2)

/-- The re-key loop over the remaining (time, captured-pose) pairs: move
there, set and key the target driver, re-apply the captured pose and
re-key the six transform channels. -/
def interiorLoop (env : Env) (tp : Plug) (tv : ℚ) (ctl : Node) :
    List (ℚ × Option Pose) → SceneState → Except SceneState SceneState
  | [], s => .ok s
  | (k, m) :: rest, s =>
    bindE (doCurrentTime env k s) fun s =>
    bindE (doSetAttr env tp tv s) fun s =>
    bindE (doSetKeyframe env tp s) fun s =>
    bindE (apply_world_matrix env ctl m s) fun s =>
    bindE (create_transform_keys env [ctl] none flagsTR s) fun s =>
    interiorLoop env tp tv ctl rest s

/-- The `bake keyframes` branch of `space_switch`.  `keyframes0` is the
sorted deduplicated key-time query result (`ref_keys`); the branch
windows it, aborts with a warning when the window is empty (the source's
`raise Exception` escape is the `.error` branch), gathers the poses,
conditionally captures the end-of-window poses, performs the head
boundary switch and the reversed tail close, and re-keys the interior.
The end-of-window poses are captured only under the first guard
(`len > 1`), so the tail close hitting `none` is the source's
`NameError` on `end_pos` — a raise, not a designed path. -/
def bake_keyframes_branch (env : Env) (ctl : Node) (sp : Plug) (sv : ℚ)
    (tp : Plug) (tv : ℚ) (ref_keys keyframes : List ℚ)
    (s : SceneState) : Except SceneState SceneState :=
  if keyframes.isEmpty then
    .error (s.withEvent (.warn "No keys to bake!"))
  else
    bindE (captureLoop env sp sv ctl keyframes s) fun r =>
    let s := r.1
    let matrixData := r.2
    bindE
      (if 1 < keyframes.length ∧ keyframes.getLastD 0 < ref_keys.getLastD 0 then
        bindE (doCurrentTime env (keyframes.getLastD 0) s) fun s =>
        let endMat := get_world_matrix env s ctl
        bindE (doCurrentTime env (keyframes.getLastD 0 - 1) s) fun s =>
        let prevMat := get_world_matrix env s ctl
        (.ok (s, some (endMat, prevMat)) :
          Except SceneState (SceneState × Option (Option Pose × Option Pose)))
      else .ok (s, none)) fun r2 =>
    let s := r2.1
    let endPrev := r2.2
    bindE
      (if ref_keys.headI < keyframes.headI then
        bindE (set_space_switch env keyframes.headI ctl sp sv tp tv s) fun s =>
        (.ok (s, keyframes.tail, matrixData.tail) :
          Except SceneState (SceneState × List ℚ × List (Option Pose)))
      else .ok (s, keyframes, matrixData)) fun r3 =>
    let s := r3.1
    let kf := r3.2.1
    let md := r3.2.2
    bindE
      (if kf ≠ [] ∧ kf.getLastD 0 < ref_keys.getLastD 0 then
        match endPrev with
        | some (endMat, prevMat) =>
          bindE (doCurrentTime env (kf.getLastD 0) s) fun s =>
          bindE (doSetAttr env sp sv s) fun s =>
          bindE (doSetKeyframe env sp s) fun s =>
          bindE (apply_world_matrix env ctl endMat s) fun s =>
          bindE (create_transform_keys env [ctl] none flagsTR s) fun s =>
          bindE (doCurrentTime env (kf.getLastD 0 - 1) s) fun s =>
          bindE (doSetAttr env tp tv s) fun s =>
          bindE (doSetKeyframe env tp s) fun s =>
          bindE (apply_world_matrix env ctl prevMat s) fun s =>
          bindE (create_transform_keys env [ctl] none flagsTR s) fun s =>
          (.ok (s, kf.dropLast, md.dropLast) :
            Except SceneState (SceneState × List ℚ × List (Option Pose)))
        | none => .error s
      else .ok (s, kf, md)) fun r4 =>
    interiorLoop env tp tv ctl (r4.2.1.zip r4.2.2) r4.1

/-- The `bake every frame` branch of `space_switch`: the sample set is
every integer frame of the window (or playback range), the head/tail
boundary guards compare the control's existing keyframe extent with the
sampled range, and the tail boundary re-uses `set_space_switch` with the
source and target arguments swapped.  An empty keyframe or sample list
raises (`keyframes[0]` / `time_range[0]` / `time_range[-1]` are indexed
unguarded in the source). -/
def bake_everyframe_branch (env : Env) (ctl : Node) (sp : Plug) (sv : ℚ)
    (tp : Plug) (tv : ℚ) (rsq req : ℚ) (keyframes : List ℚ)
    (s : SceneState) : Except SceneState SceneState :=
  let time_range := pyRange (pyInt rsq) (pyInt req + 1)
  bindE (captureLoop env sp sv ctl time_range s) fun r =>
  let s := r.1
  let matrixData := r.2
  match keyframes with
  | [] => .error s
  | _ =>
    match time_range with
    | [] => .error s
    | _ =>
      bindE
        (if keyframes.headI < time_range.headI then
          bindE (set_space_switch env time_range.headI ctl sp sv tp tv s) fun s =>
          (.ok (s, time_range.tail, matrixData.tail) :
            Except SceneState (SceneState × List ℚ × List (Option Pose)))
        else .ok (s, time_range, matrixData)) fun r2 =>
      let s := r2.1
      let tr := r2.2.1
      let md := r2.2.2
      match tr with
      | [] => .error s
      | _ =>
        bindE
          (if tr.getLastD 0 < keyframes.getLastD 0 then
            bindE (set_space_switch env (tr.getLastD 0) ctl tp tv sp sv s) fun s =>
            (.ok (s, tr.dropLast, md.dropLast) :
              Except SceneState (SceneState × List ℚ × List (Option Pose)))
          else .ok (s, tr, md)) fun r3 =>
        interiorLoop env tp tv ctl (r3.2.1.zip r3.2.2) r3.1

/-- The `try` block of `space_switch`: reads the current frame, extracts
the spec (validation has already established the entries are present;
the impossible `none` arms are the unreachable `IndexError`), dispatches
on the bake mode, and for the two bake modes restores the time cursor
afterwards. -/
def space_switch_body (env : Env) (d : SpaceData) (ui : SpaceUI) (s : SceneState) :
    Except SceneState SceneState :=
  let current_frame := s.time
  match d.source, d.target with
  | some src, some tgt =>
    let ctl := d.control
    match ui.mode with
    | .currentFrame =>
      set_space_switch env current_frame ctl src.plug src.value tgt.plug tgt.value s
    | mode =>
      let keyframes := sortTimes (env.keyTimes [ctl]).dedup
      bindE
        (if mode = BakeMode.bakeKeyframes then
          bake_keyframes_branch env ctl src.plug src.value tgt.plug tgt.value
            keyframes
            (if ui.useTimeRange then
              keyframes.filter
                (fun k => decide ((ui.startFrame : ℚ) ≤ k) && decide (k ≤ (ui.endFrame : ℚ)))
            else keyframes) s
        else
          bake_everyframe_branch env ctl src.plug src.value tgt.plug tgt.value
            (if ui.useTimeRange then (ui.startFrame : ℚ) else env.playbackMin)
            (if ui.useTimeRange then (ui.endFrame : ℚ) else env.playbackMax)
            keyframes s)
        fun s => doCurrentTime env current_frame s
  | _, _ => .error s

/-- `SpaceSwitchTool.space_switch()`: re-validate, warn-and-return on
stale data; otherwise open the undo chunk, lock the viewport, run the
body inside the huge `try`, warn on any exception, and in the `finally`
unlock the viewport and close the undo chunk. -/
def space_switch (env : Env) (d : SpaceData) (ui : SpaceUI) (s : SceneState) : SceneState :=
  if validate_space_switch_data env d then
    let s := s.withEvent .openChunk
    let s := s.withEvent .lockViewport
    let s :=
      match space_switch_body env d ui s with
      | .ok s' => s'
      | .error s' => s'.withEvent (.warn "There is an Error in try block!")
    let s := s.withEvent .unlockViewport
    s.withEvent .closeChunk
  else
    s.withEvent (.warn "Attributes and control are invalid! Please follow instruction!")

/-- `check_node_type(nodes, checkTypes)`: every node's exact type tag is
one of the accepted tags. -/
def check_node_type (env : Env) (nodes : List Node) (checkTypes : List String) : Bool :=
  nodes.all (fun n => checkTypes.contains (env.nodeType n))

/-- `check_rotate_order(source, target)`: both are transform/joint nodes
with identical rotate orders. -/
def check_rotate_order (env : Env) (a b : Node) : Bool :=
  if check_node_type env [a, b] ["transform", "joint"] then
    env.rotOrder a == env.rotOrder b
  else false

/-- `SpaceSwitchTool._check_fk_rotate_order`: compares each joint/FK-control
pair; on any mismatch the user is asked whether to continue anyway
(`env.proceedOnMismatch` is the dialog answer). -/
def check_fk_rotate_order (env : Env) (shJ elJ wrJ fkSh fkEl fkWr : Node) : Bool :=
  let mismatch := !check_rotate_order env shJ fkSh || !check_rotate_order env elJ fkEl ||
    !check_rotate_order env wrJ fkWr
  if mismatch then env.proceedOnMismatch else true

/-- `constrain_move_key(driver, driven, constraintType)`: the temporary
locator + constraint + sample + delete sequence, modelled as the abstract
scene's atomic constraint probe (the helper nodes are deleted again, so
their net scene effect is nil); returns the probed world pose of the
driven node.  One mutating host call. -/
def constrain_move_key (env : Env) (driver driven : Node) (s : SceneState) :
    Except SceneState (SceneState × Pose) :=
  if env.failAt = some s.muts then .error s
  else
    let r := env.probeF s.time s.attrs (worldAt env s.time s.attrs s.posOv s.rotOv)
      driver driven
    .ok ({ s with trace := s.trace ++ [.probe driver driven r], muts := s.muts + 1 }, r)

/-- component-wise vector sum (`om.MVector` addition) -/
def vadd (a b : Vec3) : Vec3 := (a.1 + b.1, (a.2.1 + b.2.1, a.2.2 + b.2.2))

/-- component-wise vector difference -/
def vsub (a b : Vec3) : Vec3 := (a.1 - b.1, (a.2.1 - b.2.1, a.2.2 - b.2.2))

/-- scalar multiple -/
def vsmul (a : Vec3) (c : ℚ) : Vec3 := (a.1 * c, (a.2.1 * c, a.2.2 * c))

/-- `SpaceSwitchTool.get_ik_to_fk_switch`: the FK targets are the current
world rotations of the three skeleton joints (positions are queried but
not returned).  A pure query. -/
def get_ik_to_fk_switch (env : Env) (s : SceneState) (shJ elJ wrJ : Node) :
    Option Vec3 × Option Vec3 × Option Vec3 :=
  ((get_world_matrix env s shJ).map Pose.rot,
   (get_world_matrix env s elJ).map Pose.rot,
   (get_world_matrix env s wrJ).map Pose.rot)

/-- Python truthiness of the `prev_frame` argument: `if prev_frame:` is
false both for `None` and for frame `0.0`. -/
def pyTruthy (o : Option ℚ) : Bool :=
  match o with
  | none => false
  | some q => decide (q ≠ 0)

/-- `cmds.xform(n, rotation=value, worldSpace=True)` with a value that
may be the `None` of a failed joint query (which raises). -/
def xformRotValue (env : Env) (n : Node) (v : Option Vec3) (s : SceneState) :
    Except SceneState SceneState :=
  match v with
  | some r => doXformR env n r s
  | none => .error s

/-- `SpaceSwitchTool.set_ik_to_fk_switch`: optionally hold the previous
frame (rotation-only keys on the three FK controls plus driver keys),
then at `frame` set and key the FK switch driver and write + key the
three world rotations (the visibility `setAttr` lines are commented out
in the source; only the `prev` block keys them). -/
def set_ik_to_fk_switch (env : Env) (fkSh fkEl fkWr : Node)
    (shRot elRot wrRot : Option Vec3) (fkSwitch fkVis ikVis : AttrVal)
    (frame : ℚ) (prev : Option ℚ) (s : SceneState) : Except SceneState SceneState :=
  bindE
    (if pyTruthy prev then
      bindE (doCurrentTime env (prev.getD 0) s) fun s =>
      bindE (create_transform_keys env [fkSh] none flagsR s) fun s =>
      bindE (create_transform_keys env [fkEl] none flagsR s) fun s =>
      bindE (create_transform_keys env [fkWr] none flagsR s) fun s =>
      bindE (doSetKeyframe env fkSwitch.plug s) fun s =>
      bindE (doSetKeyframe env fkVis.plug s) fun s =>
      doSetKeyframe env ikVis.plug s
    else .ok s) fun s =>
  bindE (doCurrentTime env frame s) fun s =>
  bindE (doSetAttr env fkSwitch.plug fkSwitch.value s) fun s =>
  bindE (doSetKeyframe env fkSwitch.plug s) fun s =>
  bindE (xformRotValue env fkSh shRot s) fun s =>
  bindE (create_transform_keys env [fkSh] none flagsR s) fun s =>
  bindE (xformRotValue env fkEl elRot s) fun s =>
  bindE (create_transform_keys env [fkEl] none flagsR s) fun s =>
  bindE (xformRotValue env fkWr wrRot s) fun s =>
  create_transform_keys env [fkWr] none flagsR s

/-- `SpaceSwitchTool.get_fk_to_ik_switch`: capture the three joints'
world poses and the IK switch value; probe the wrist via a temporary
constraint, set the IK switch, apply the first probed pose, probe again
(the empirical double-probe workaround) and keep the second result;
re-apply the wrist joint's captured pose to the IK wrist control and
restore the switch value; finally build the pole-vector position from
the joint positions: `M = S + (W-S)*0.5`, `P = M + (E-M)*4`.
Returns `(wrist_pos, wrist_rot, new_elbow_pos)`. -/
def get_fk_to_ik_switch (env : Env) (shJ elJ wrJ ikWrist : Node) (ikSwitch : AttrVal)
    (s : SceneState) : Except SceneState (SceneState × (Vec3 × Vec3 × Vec3)) :=
  let origSh := get_world_matrix env s shJ
  let origEl := get_world_matrix env s elJ
  let origWr := get_world_matrix env s wrJ
  let origSwitchValue := s.attrs ikSwitch.plug
  bindE (constrain_move_key env wrJ ikWrist s) fun r1 =>
  let p1 := r1.2
  bindE (doSetAttr env ikSwitch.plug ikSwitch.value r1.1) fun s =>
  bindE (apply_world_matrix env ikWrist (some p1) s) fun s =>
  bindE (constrain_move_key env wrJ ikWrist s) fun r2 =>
  let p2 := r2.2
  bindE (apply_world_matrix env ikWrist origWr r2.1) fun s =>
  bindE (doSetAttr env ikSwitch.plug origSwitchValue s) fun s =>
  match origSh, origEl, origWr with
  | some osh, some oel, some owr =>
    let midpoint := vadd (vsmul (vsub owr.pos osh.pos) (1/2)) osh.pos
    let aim := vadd (vsmul (vsub oel.pos midpoint) 4) midpoint
    .ok (s, (p2.pos, p2.rot, aim))
  | _, _, _ => .error s

/-- `SpaceSwitchTool.set_fk_to_ik_switch`: optionally hold the previous
frame, then at `frame` set and key the IK switch driver, apply and key
the wrist pose, and write + key the elbow pole position (translation
only; the visibility `setAttr` lines are commented out in the source). -/
def set_fk_to_ik_switch (env : Env) (ikWrist ikElbow : Node)
    (wristPos wristRot elbowPos : Vec3) (ikSwitch fkVis ikVis : AttrVal)
    (frame : ℚ) (prev : Option ℚ) (s : SceneState) : Except SceneState SceneState :=
  bindE
    (if pyTruthy prev then
      bindE (doCurrentTime env (prev.getD 0) s) fun s =>
      bindE (create_transform_keys env [ikWrist] none flagsTR s) fun s =>
      bindE (create_transform_keys env [ikElbow] none flagsT s) fun s =>
      bindE (doSetKeyframe env ikSwitch.plug s) fun s =>
      bindE (doSetKeyframe env ikVis.plug s) fun s =>
      doSetKeyframe env fkVis.plug s
    else .ok s) fun s =>
  bindE (doCurrentTime env frame s) fun s =>
  bindE (doSetAttr env ikSwitch.plug ikSwitch.value s) fun s =>
  bindE (doSetKeyframe env ikSwitch.plug s) fun s =>
  bindE (apply_world_matrix env ikWrist (some ⟨wristPos, wristRot⟩) s) fun s =>
  bindE (create_transform_keys env [ikWrist] none flagsTR s) fun s =>
  bindE (doXformT env ikElbow elbowPos s) fun s =>
  create_transform_keys env [ikElbow] none flagsT s

/-- One gathered per-frame sample of `get_ikfk_data`: joint rotations for
IK→FK, wrist pose + pole position for FK→IK. -/
inductive IkfkSample where
  | fkRots (shRot elRot wrRot : Option Vec3)
  | ikPose (wristPos wristRot elbowPos : Vec3)
deriving DecidableEq, Repr

/-- `SpaceSwitchTool.get_ikfk_data`: dispatch to the direction's capture. -/
def get_ikfk_data (env : Env) (flag : Bool) (shJ elJ wrJ ikWrist : Node)
    (ikSwitch : AttrVal) (s : SceneState) : Except SceneState (SceneState × IkfkSample) :=
  if flag then
    let r := get_ik_to_fk_switch env s shJ elJ wrJ
    .ok (s, .fkRots r.1 r.2.1 r.2.2)
  else
    bindE (get_fk_to_ik_switch env shJ elJ wrJ ikWrist ikSwitch s) fun r =>
    .ok (r.1, .ikPose r.2.1 r.2.2.1 r.2.2.2)

/-- `SpaceSwitchTool.set_ikfk_switch`: capture for the requested
direction and apply it at `frame`, holding `prev` as the previous frame. -/
def set_ikfk_switch (env : Env) (flag : Bool) (shJ elJ wrJ fkSh fkEl fkWr : Node)
    (fkSwitch fkVis ikVis ikSwitch : AttrVal) (ikWrist ikElbow : Node)
    (frame prev : ℚ) (s : SceneState) : Except SceneState SceneState :=
  if flag then
    let r := get_ik_to_fk_switch env s shJ elJ wrJ
    set_ik_to_fk_switch env fkSh fkEl fkWr r.1 r.2.1 r.2.2 fkSwitch fkVis ikVis
      frame (some prev) s
  else
    bindE (get_fk_to_ik_switch env shJ elJ wrJ ikWrist ikSwitch s) fun r =>
    set_fk_to_ik_switch env ikWrist ikElbow r.2.1 r.2.2.1 r.2.2.2 ikSwitch fkVis ikVis
      frame (some prev) r.1

/-- The bake-mode data-gathering loop of `ikfk_switch`: per sampled key,
move there and run `get_ikfk_data`. -/
def ikfkCaptureLoop (env : Env) (flag : Bool) (shJ elJ wrJ ikWrist : Node)
    (ikSwitch : AttrVal) :
    List ℚ → SceneState → Except SceneState (SceneState × List IkfkSample)
  | [], s => .ok (s, [])
  | k :: ks, s =>
    bindE (doCurrentTime env k s) fun s =>
    bindE (get_ikfk_data env flag shJ elJ wrJ ikWrist ikSwitch s) fun r =>
    bindE (ikfkCaptureLoop env flag shJ elJ wrJ ikWrist ikSwitch ks r.1) fun r2 =>
    .ok (r2.1, r.2 :: r2.2)

/-- The mode dispatch of `ikfk_switch` after validation and the
rotate-order gate.  The two bake modes gather their samples, dump them
through the review `print` loop (stdout only) and return early
(`return # for now` after the empty-window warning; the head/tail
boundary code after the review loop is unreachable and omitted; the
`bake every frame` gathering also iterates the keyframe list, as the
source does). -/
def ikfk_switch_main (env : Env) (d : IkfkData)
    (fkSwitch fkVis ikSwitch ikVis : AttrVal) (ui : SpaceUI) (flag : Bool)
    (ctls : List Node) (current_frame prev_frame : ℚ) (s : SceneState) :
    Except SceneState SceneState :=
  match ui.mode with
  | .currentFrame =>
    set_ikfk_switch env flag d.shoulderJnt d.elbowJnt d.wristJnt
      d.fkShoulder d.fkElbow d.fkWrist fkSwitch fkVis ikVis ikSwitch
      d.ikWrist d.ikElbow current_frame prev_frame s
  | mode =>
    let keyframes := sortTimes (env.keyTimes ctls).dedup
    if mode = BakeMode.bakeKeyframes then
      let keyframes :=
        if ui.useTimeRange then
          keyframes.filter
            (fun k => decide ((ui.startFrame : ℚ) ≤ k) && decide (k ≤ (ui.endFrame : ℚ)))
        else keyframes
      if keyframes.isEmpty then .ok (s.withEvent (.warn "No keys to bake!"))
      else
        bindE (ikfkCaptureLoop env flag d.shoulderJnt d.elbowJnt d.wristJnt
          d.ikWrist ikSwitch keyframes s) fun r =>
        .ok r.1
    else
      bindE (ikfkCaptureLoop env flag d.shoulderJnt d.elbowJnt d.wristJnt
        d.ikWrist ikSwitch keyframes s) fun r =>
      .ok r.1

/-- `SpaceSwitchTool.ikfk_switch()`: re-validate and warn-and-return on
stale data; gate IK→FK behind the rotate-order dialog (a `No` answer
returns silently); then dispatch on the bake mode.  The undo-chunk and
viewport lock/unlock calls are commented out in this method, so no
resource events are emitted and exceptions propagate to the caller. -/
def ikfk_switch (env : Env) (d : IkfkData) (ui : SpaceUI) (flag : Bool)
    (s : SceneState) : Except SceneState SceneState :=
  if validate_ikfk_switch_data env d then
    match d.fkSwitch, d.fkVis, d.ikSwitch, d.ikVis with
    | some fkSwitchA, some fkVisA, some ikSwitchA, some ikVisA =>
      let current_frame := s.time
      let prev_frame := current_frame - 1
      if flag then
        if check_fk_rotate_order env d.shoulderJnt d.elbowJnt d.wristJnt
            d.fkShoulder d.fkElbow d.fkWrist then
          ikfk_switch_main env d fkSwitchA fkVisA ikSwitchA ikVisA ui flag
            [d.ikElbow, d.ikWrist] current_frame prev_frame s
        else .ok s
      else
        ikfk_switch_main env d fkSwitchA fkVisA ikSwitchA ikVisA ui flag
          [d.fkShoulder, d.fkElbow, d.fkWrist] current_frame prev_frame s
    | _, _, _, _ => .error s
  else
    .ok (s.withEvent (.warn
      "Either joints, controls or attributes loaded are invalid! Please read the tooltip of each button for instruction."))

/-- A baseline host environment for concrete witness runs: every node
exists and is a transform, the rig moves every node with the time
cursor, three keyframes exist, and the host never fails. -/
def env0 : Env :=
  { isTransform := fun _ => true
    objExists := fun _ => true
    attrExists := fun _ _ => true
    nodeType := fun _ => "transform"
    rotOrder := fun _ => 0
    anim := fun t a n => ⟨(t, a ⟨n, "space"⟩, 0), (0, t, 1)⟩
    probeF := fun t _ _ _ _ => ⟨(t, 7, 0), (0, 7, 1)⟩
    keyTimes := fun _ => [0, 5, 10]
    selection := []
    playbackMin := 0
    playbackMax := 10
    proceedOnMismatch := true
    failAt := none }

/-- A baseline entry scene state for concrete witness runs. -/
def s0 : SceneState :=
  { time := 3
    attrs := fun _ => 0
    posOv := fun _ => none
    rotOv := fun _ => none
    trace := []
    muts := 0 }

/-- C1: for every SpaceSwitchSpec and time `t`, a CurrentFrame switch
(`set_space_switch`) leaves the control's world pose at `t` equal to the
pose it held at `t` immediately before the switch (`env.anim t s.attrs`,
the pose a world query at `t` returns under the entry attribute values)
— exactly, hence within any floating-point tolerance — given that
world-pose reads/writes are faithful (the model's `worldOf` semantics),
the control is a transform that exists, and the host does not fail. -/
theorem c1_currentframe_pose_preserved (env : Env) (frame : ℚ) (ctl : Node)
    (sp : Plug) (sv : ℚ) (tp : Plug) (tv : ℚ) (s : SceneState)
    (hF : env.failAt = none) (hT : env.isTransform ctl = true)
    (hE : env.objExists ctl = true) :
    ∃ s', set_space_switch env frame ctl sp sv tp tv s = .ok s' ∧
      s'.time = frame ∧
      worldOf env s' ctl = env.anim frame s.attrs ctl := by
  refine ⟨_, set_space_switch_run env frame ctl sp sv tp tv s hF hT hE, rfl, ?_⟩
  simp [worldOf, worldAt, updO]

/-- Witness for C1 at a concrete environment, time and spec. -/
theorem c1_witness :
    env0.failAt = none ∧ env0.isTransform "ctl" = true ∧ env0.objExists "ctl" = true ∧
    (∃ s', set_space_switch env0 3 "ctl" ⟨"root", "spaceA"⟩ 0 ⟨"root", "spaceB"⟩ 1 s0 = .ok s' ∧
      s'.time = 3 ∧ worldOf env0 s' "ctl" = env0.anim 3 s0.attrs "ctl") :=
  ⟨rfl, rfl, rfl,
    c1_currentframe_pose_preserved env0 3 "ctl" ⟨"root", "spaceA"⟩ 0 ⟨"root", "spaceB"⟩ 1 s0
      rfl rfl rfl⟩

/-- C2: a CurrentFrame switch keys only at the two times `t-1` and `t`:
every keyframe event of the appended trace is at `t-1` or `t`, the
source driver is set and keyed to its source value at `t-1`, and the
target driver is set and keyed to its target value at `t`. -/
theorem c2_boundary_framing (env : Env) (frame : ℚ) (ctl : Node)
    (sp : Plug) (sv : ℚ) (tp : Plug) (tv : ℚ) (s : SceneState)
    (hF : env.failAt = none) (hT : env.isTransform ctl = true)
    (hE : env.objExists ctl = true) :
    ∃ s' ext, set_space_switch env frame ctl sp sv tp tv s = .ok s' ∧
      s'.trace = s.trace ++ ext ∧
      (∀ e ∈ ext, ∀ t', e.keyTime = some t' → t' = frame - 1 ∨ t' = frame) ∧
      Event.setAttr sp sv ∈ ext ∧ Event.setKeyAttr sp (frame - 1) sv ∈ ext ∧
      Event.setAttr tp tv ∈ ext ∧ Event.setKeyAttr tp frame tv ∈ ext := by
  refine ⟨_, ssTrace ctl sp sv tp tv frame (env.anim frame s.attrs ctl),
    set_space_switch_run env frame ctl sp sv tp tv s hF hT hE, rfl, ?_, ?_, ?_, ?_, ?_⟩
  · intro e he t' ht
    simp only [ssTrace, keyChanTrace, List.cons_append, List.nil_append] at he
    fin_cases he <;> simp_all [Event.keyTime]
  · simp [ssTrace, keyChanTrace]
  · simp [ssTrace, keyChanTrace]
  · simp [ssTrace, keyChanTrace]
  · simp [ssTrace, keyChanTrace]

/-- Witness for C2 at a concrete environment, time and spec. -/
theorem c2_witness :
    env0.failAt = none ∧ env0.isTransform "ctl" = true ∧ env0.objExists "ctl" = true ∧
    (∃ s' ext, set_space_switch env0 3 "ctl" ⟨"root", "spaceA"⟩ 0 ⟨"root", "spaceB"⟩ 1 s0 = .ok s' ∧
      s'.trace = s0.trace ++ ext ∧
      (∀ e ∈ ext, ∀ t', e.keyTime = some t' → t' = 3 - 1 ∨ t' = 3) ∧
      Event.setAttr ⟨"root", "spaceA"⟩ 0 ∈ ext ∧
      Event.setKeyAttr ⟨"root", "spaceA"⟩ (3 - 1) 0 ∈ ext ∧
      Event.setAttr ⟨"root", "spaceB"⟩ 1 ∈ ext ∧
      Event.setKeyAttr ⟨"root", "spaceB"⟩ 3 1 ∈ ext) :=
  ⟨rfl, rfl, rfl,
    c2_boundary_framing env0 3 "ctl" ⟨"root", "spaceA"⟩ 0 ⟨"root", "spaceB"⟩ 1 s0 rfl rfl rfl⟩

/-- Modelled from the spec's formula text (C7): midpoint
`M = S + (W - S) * 0.5`, pole target `P = M + (E - M) * 4`. -/
def poleTargetSpec (S E W : Vec3) : Vec3 :=
  let M := vadd S (vsmul (vsub W S) (1/2))
  vadd M (vsmul (vsub E M) 4)

/-- The source's aim-vector arithmetic agrees with the spec's formula
(vector addition written in the other order). -/
theorem pole_formula_eq (S E W : Vec3) :
    vadd (vsmul (vsub E (vadd (vsmul (vsub W S) (1/2)) S)) 4)
      (vadd (vsmul (vsub W S) (1/2)) S) = poleTargetSpec S E W := by
  simp only [poleTargetSpec, vadd, vsub, vsmul, Prod.mk.injEq]
  refine ⟨by ring, by ring, by ring⟩

/-- The returned triple of a `get_fk_to_ik_switch` run, `none` on a raise. -/
def fkikResult (r : Except SceneState (SceneState × (Vec3 × Vec3 × Vec3))) :
    Option (Vec3 × Vec3 × Vec3) :=
  match r with
  | .ok (_, v) => some v
  | .error _ => none

/-- The final scene state of a `get_fk_to_ik_switch` run, `none` on a raise. -/
def fkikState (r : Except SceneState (SceneState × (Vec3 × Vec3 × Vec3))) :
    Option SceneState :=
  match r with
  | .ok (s, _) => some s
  | .error _ => none

/-- The pose the first constraint probe of `get_fk_to_ik_switch` returns. -/
def firstProbePose (env : Env) (s : SceneState) (wrJ ikWrist : Node) : Pose :=
  env.probeF s.time s.attrs (worldAt env s.time s.attrs s.posOv s.rotOv) wrJ ikWrist

/-- The pose the second constraint probe of `get_fk_to_ik_switch`
returns: probed after the IK switch has been set and the first probed
pose has been applied to the IK wrist control. -/
def secondProbePose (env : Env) (s : SceneState) (wrJ ikWrist : Node)
    (ikSwitch : AttrVal) : Pose :=
  let p1 := firstProbePose env s wrJ ikWrist
  env.probeF s.time (updA s.attrs ikSwitch.plug ikSwitch.value)
    (worldAt env s.time (updA s.attrs ikSwitch.plug ikSwitch.value)
      (updO s.posOv ikWrist p1.pos) (updO s.rotOv ikWrist p1.rot))
    wrJ ikWrist

/-- A host environment realizing the spec's pole-vector example rig:
shoulder joint at the origin, elbow at `(0,5,5)`, wrist at `(0,0,10)`;
the IK wrist control sits elsewhere. -/
def env1 : Env :=
  { env0 with
      anim := fun _ _ n =>
        if n = "shJ" then ⟨(0, 0, 0), (0, 0, 0)⟩
        else if n = "elJ" then ⟨(0, 5, 5), (0, 0, 0)⟩
        else if n = "wrJ" then ⟨(0, 0, 10), (0, 0, 0)⟩
        else ⟨(1, 2, 3), (4, 5, 6)⟩ }

/-- C7 (amended): the pole-vector position `get_fk_to_ik_switch` returns
is `M + (E - M) * 4` with `M = S + (W - S) * 0.5` applied to the three
joints' world positions. -/
theorem c7_pole_vector_formula (env : Env) (shJ elJ wrJ ikWrist : Node)
    (ikSwitch : AttrVal) (s : SceneState)
    (hF : env.failAt = none) (hSh : env.isTransform shJ = true)
    (hEl : env.isTransform elJ = true) (hWr : env.isTransform wrJ = true)
    (hIk : env.isTransform ikWrist = true) :
    (fkikResult (get_fk_to_ik_switch env shJ elJ wrJ ikWrist ikSwitch s)).map
        (fun v => v.2.2) =
      some (poleTargetSpec (worldOf env s shJ).pos (worldOf env s elJ).pos
        (worldOf env s wrJ).pos) := by
  simp only [get_fk_to_ik_switch, constrain_move_key, doSetAttr, doXformT, doXformR,
    mutStep, apply_world_matrix, get_world_matrix, bindE_ok, bindE_error, hF, hSh, hEl,
    hWr, hIk, if_true, reduceCtorEq, if_false, fkikResult, Option.map]
  simp only [fkikResult, Option.map, pole_formula_eq]

/-- Witness for C7 at the spec's example rig. -/
theorem c7_witness :
    env1.failAt = none ∧ env1.isTransform "shJ" = true ∧ env1.isTransform "elJ" = true ∧
    env1.isTransform "wrJ" = true ∧ env1.isTransform "ikw" = true ∧
    (fkikResult (get_fk_to_ik_switch env1 "shJ" "elJ" "wrJ" "ikw" ⟨⟨"root", "ikfk"⟩, 1⟩ s0)).map
        (fun v => v.2.2) =
      some (poleTargetSpec (worldOf env1 s0 "shJ").pos (worldOf env1 s0 "elJ").pos
        (worldOf env1 s0 "wrJ").pos) :=
  ⟨rfl, rfl, rfl, rfl, rfl,
    c7_pole_vector_formula env1 "shJ" "elJ" "wrJ" "ikw" ⟨⟨"root", "ikfk"⟩, 1⟩ s0
      rfl rfl rfl rfl rfl⟩

/-- Evaluation of the FK→IK capture on the example rig: the returned
pole position is `(0, 20, 5)`. -/
theorem fkik_env1_pole :
    (fkikResult (get_fk_to_ik_switch env1 "shJ" "elJ" "wrJ" "ikw" ⟨⟨"root", "ikfk"⟩, 1⟩ s0)).map
      (fun v => v.2.2) = some ((0 : ℚ), 20, 5) := by
  simp +decide [get_fk_to_ik_switch, constrain_move_key, doSetAttr, doXformT, doXformR,
    mutStep, apply_world_matrix, get_world_matrix, bindE, fkikResult, env1, env0, s0,
    worldOf, worldAt, updA, updO, vadd, vsub, vsmul]
  norm_num

/-- Counterexample for C7 as stated: on the spec's own example rig
(S = (0,0,0), E = (0,5,5), W = (0,0,10)) the returned pole position is
`(0, 20, 5)`, not the `(0, 20, -15)` the claim asserts. -/
theorem c7_counterexample :
    (fkikResult (get_fk_to_ik_switch env1 "shJ" "elJ" "wrJ" "ikw" ⟨⟨"root", "ikfk"⟩, 1⟩ s0)).map
        (fun v => v.2.2) = some ((0 : ℚ), 20, 5) ∧
    ¬ (fkikResult (get_fk_to_ik_switch env1 "shJ" "elJ" "wrJ" "ikw" ⟨⟨"root", "ikfk"⟩, 1⟩ s0)).map
        (fun v => v.2.2) = some ((0 : ℚ), 20, -15) := by
  refine ⟨fkik_env1_pole, ?_⟩
  rw [fkik_env1_pole]
  simp only [Option.some.injEq, Prod.mk.injEq, not_and]
  intro _ _
  norm_num

/-- C8: a FK→IK capture probes the wrist via a temporary constraint
exactly twice, applying the first probed pose to the IK wrist control in
between, and the wrist pose it returns is the second probe's result: the
run's appended trace is precisely probe ⬝ set-switch ⬝ apply-first-pose ⬝
probe ⬝ restore, its probe events are exactly the two probes, and the
returned pose is the second probe's. -/
theorem c8_double_probe (env : Env) (shJ elJ wrJ ikWrist : Node)
    (ikSwitch : AttrVal) (s : SceneState)
    (hF : env.failAt = none) (hSh : env.isTransform shJ = true)
    (hEl : env.isTransform elJ = true) (hWr : env.isTransform wrJ = true)
    (hIk : env.isTransform ikWrist = true) :
    ∃ s' pole,
      get_fk_to_ik_switch env shJ elJ wrJ ikWrist ikSwitch s = .ok
        (s', ((secondProbePose env s wrJ ikWrist ikSwitch).pos,
              (secondProbePose env s wrJ ikWrist ikSwitch).rot, pole)) ∧
      s'.trace = s.trace ++
        [.probe wrJ ikWrist (firstProbePose env s wrJ ikWrist),
         .setAttr ikSwitch.plug ikSwitch.value,
         .xformT ikWrist (firstProbePose env s wrJ ikWrist).pos,
         .xformR ikWrist (firstProbePose env s wrJ ikWrist).rot,
         .probe wrJ ikWrist (secondProbePose env s wrJ ikWrist ikSwitch),
         .xformT ikWrist (worldOf env s wrJ).pos,
         .xformR ikWrist (worldOf env s wrJ).rot,
         .setAttr ikSwitch.plug (s.attrs ikSwitch.plug)] ∧
      (s'.trace.drop s.trace.length).filter Event.isProbe =
        [.probe wrJ ikWrist (firstProbePose env s wrJ ikWrist),
         .probe wrJ ikWrist (secondProbePose env s wrJ ikWrist ikSwitch)] := by
  simp only [get_fk_to_ik_switch, constrain_move_key, doSetAttr, doXformT, doXformR,
    mutStep, apply_world_matrix, get_world_matrix, bindE_ok, bindE_error, hF, hSh, hEl,
    hWr, hIk, if_true, reduceCtorEq, if_false, firstProbePose, secondProbePose, worldOf]
  refine ⟨_, _, rfl, ?_, ?_⟩
  · simp [List.append_assoc]
  · simp [List.drop_left, List.filter, Event.isProbe, List.append_assoc]

/-- Witness for C8. -/
theorem c8_witness :
    env1.failAt = none ∧ env1.isTransform "shJ" = true ∧ env1.isTransform "elJ" = true ∧
    env1.isTransform "wrJ" = true ∧ env1.isTransform "ikw" = true ∧
    (∃ s' pole,
      get_fk_to_ik_switch env1 "shJ" "elJ" "wrJ" "ikw" ⟨⟨"root", "ikfk"⟩, 1⟩ s0 = .ok
        (s', ((secondProbePose env1 s0 "wrJ" "ikw" ⟨⟨"root", "ikfk"⟩, 1⟩).pos,
              (secondProbePose env1 s0 "wrJ" "ikw" ⟨⟨"root", "ikfk"⟩, 1⟩).rot, pole)) ∧
      s'.trace = s0.trace ++
        [.probe "wrJ" "ikw" (firstProbePose env1 s0 "wrJ" "ikw"),
         .setAttr ⟨"root", "ikfk"⟩ 1,
         .xformT "ikw" (firstProbePose env1 s0 "wrJ" "ikw").pos,
         .xformR "ikw" (firstProbePose env1 s0 "wrJ" "ikw").rot,
         .probe "wrJ" "ikw" (secondProbePose env1 s0 "wrJ" "ikw" ⟨⟨"root", "ikfk"⟩, 1⟩),
         .xformT "ikw" (worldOf env1 s0 "wrJ").pos,
         .xformR "ikw" (worldOf env1 s0 "wrJ").rot,
         .setAttr ⟨"root", "ikfk"⟩ (s0.attrs ⟨"root", "ikfk"⟩)] ∧
      (s'.trace.drop s0.trace.length).filter Event.isProbe =
        [.probe "wrJ" "ikw" (firstProbePose env1 s0 "wrJ" "ikw"),
         .probe "wrJ" "ikw" (secondProbePose env1 s0 "wrJ" "ikw" ⟨⟨"root", "ikfk"⟩, 1⟩)]) :=
  ⟨rfl, rfl, rfl, rfl, rfl,
    c8_double_probe env1 "shJ" "elJ" "wrJ" "ikw" ⟨⟨"root", "ikfk"⟩, 1⟩ s0 rfl rfl rfl rfl rfl⟩

/-- C10 (amended): a FK→IK capture restores the IK switch attribute to
its entry value (the whole attribute table is unchanged) and leaves the
IK wrist control pinned to the *wrist joint's* entry world pose — not to
the control's own entry pose. -/
theorem c10_restores_joint_pose (env : Env) (shJ elJ wrJ ikWrist : Node)
    (ikSwitch : AttrVal) (s : SceneState)
    (hF : env.failAt = none) (hSh : env.isTransform shJ = true)
    (hEl : env.isTransform elJ = true) (hWr : env.isTransform wrJ = true)
    (hIk : env.isTransform ikWrist = true) :
    ∃ s' ret,
      get_fk_to_ik_switch env shJ elJ wrJ ikWrist ikSwitch s = .ok (s', ret) ∧
      s'.attrs = s.attrs ∧ s'.time = s.time ∧
      worldOf env s' ikWrist = worldOf env s wrJ := by
  simp only [get_fk_to_ik_switch, constrain_move_key, doSetAttr, doXformT, doXformR,
    mutStep, apply_world_matrix, get_world_matrix, bindE_ok, bindE_error, hF, hSh, hEl,
    hWr, hIk, if_true, reduceCtorEq, if_false]
  refine ⟨_, _, rfl, ?_, rfl, ?_⟩
  · funext q
    by_cases h : q = ikSwitch.plug <;> simp [updA, h]
  · simp [worldOf, worldAt, updO]

/-- Witness for C10's amended theorem. -/
theorem c10_witness :
    env1.failAt = none ∧ env1.isTransform "shJ" = true ∧ env1.isTransform "elJ" = true ∧
    env1.isTransform "wrJ" = true ∧ env1.isTransform "ikw" = true ∧
    (∃ s' ret,
      get_fk_to_ik_switch env1 "shJ" "elJ" "wrJ" "ikw" ⟨⟨"root", "ikfk"⟩, 1⟩ s0 = .ok (s', ret) ∧
      s'.attrs = s0.attrs ∧ s'.time = s0.time ∧
      worldOf env1 s' "ikw" = worldOf env1 s0 "wrJ") :=
  ⟨rfl, rfl, rfl, rfl, rfl,
    c10_restores_joint_pose env1 "shJ" "elJ" "wrJ" "ikw" ⟨⟨"root", "ikfk"⟩, 1⟩ s0
      rfl rfl rfl rfl rfl⟩

/-- Evaluation of the FK→IK capture on the example rig: the IK wrist
control ends at the wrist joint's entry pose `(0,0,10) / (0,0,0)`. -/
theorem fkik_env1_wrist_pose :
    (fkikState (get_fk_to_ik_switch env1 "shJ" "elJ" "wrJ" "ikw" ⟨⟨"root", "ikfk"⟩, 1⟩ s0)).map
      (fun t => worldOf env1 t "ikw") = some ⟨(0, 0, 10), (0, 0, 0)⟩ := by
  simp +decide [get_fk_to_ik_switch, constrain_move_key, doSetAttr, doXformT, doXformR,
    mutStep, apply_world_matrix, get_world_matrix, bindE, fkikState, env1, env0, s0,
    worldOf, worldAt, updA, updO]

/-- Counterexample for C10 as stated: on the example rig the IK wrist
control entered at pose `(1,2,3) / (4,5,6)` but is left at the wrist
joint's pose `(0,0,10) / (0,0,0)` — the capture does *not* re-apply the
IK wrist control's own original pose, it applies the wrist joint's. -/
theorem c10_counterexample :
    (fkikState (get_fk_to_ik_switch env1 "shJ" "elJ" "wrJ" "ikw" ⟨⟨"root", "ikfk"⟩, 1⟩ s0)).map
      (fun t => worldOf env1 t "ikw") = some ⟨(0, 0, 10), (0, 0, 0)⟩ ∧
    worldOf env1 s0 "ikw" = ⟨(1, 2, 3), (4, 5, 6)⟩ ∧
    ¬ (fkikState (get_fk_to_ik_switch env1 "shJ" "elJ" "wrJ" "ikw" ⟨⟨"root", "ikfk"⟩, 1⟩ s0)).map
      (fun t => worldOf env1 t "ikw") = some (worldOf env1 s0 "ikw") := by
  refine ⟨fkik_env1_wrist_pose, ?_, ?_⟩
  · simp +decide [worldOf, worldAt, env1, env0, s0]
  · rw [fkik_env1_wrist_pose]
    simp +decide [worldOf, worldAt, env1, env0, s0]

/-- The three rotation-channel key events of a rotation-only
`create_transform_keys` call. -/
def rotKeyTrace (n : Node) (t : ℚ) : List Event :=
  [.keyChannel n "rotateX" t, .keyChannel n "rotateY" t, .keyChannel n "rotateZ" t]

/-- The events of `set_ik_to_fk_switch`'s hold-the-previous-frame block. -/
def ikToFkHoldTrace (fkSh fkEl fkWr : Node) (fkSwitch fkVis ikVis : AttrVal)
    (p : ℚ) (a0 : Plug → ℚ) : List Event :=
  .curTime p :: (rotKeyTrace fkSh p ++ rotKeyTrace fkEl p ++ rotKeyTrace fkWr p ++
    [.setKeyAttr fkSwitch.plug p (a0 fkSwitch.plug),
     .setKeyAttr fkVis.plug p (a0 fkVis.plug),
     .setKeyAttr ikVis.plug p (a0 ikVis.plug)])

/-- The events of `set_ik_to_fk_switch`'s apply block at `frame`. -/
def ikToFkApplyTrace (fkSh fkEl fkWr : Node) (a b c : Vec3) (fkSwitch : AttrVal)
    (frame : ℚ) : List Event :=
  .curTime frame :: .setAttr fkSwitch.plug fkSwitch.value ::
  .setKeyAttr fkSwitch.plug frame fkSwitch.value ::
  .xformR fkSh a :: (rotKeyTrace fkSh frame ++
  .xformR fkEl b :: (rotKeyTrace fkEl frame ++
  .xformR fkWr c :: rotKeyTrace fkWr frame))

/-- The full event trace of one `set_ik_to_fk_switch` run. -/
def ikToFkTrace (fkSh fkEl fkWr : Node) (a b c : Vec3)
    (fkSwitch fkVis ikVis : AttrVal) (frame : ℚ) (prev : Option ℚ)
    (a0 : Plug → ℚ) : List Event :=
  (if pyTruthy prev then
    ikToFkHoldTrace fkSh fkEl fkWr fkSwitch fkVis ikVis (prev.getD 0) a0
  else []) ++ ikToFkApplyTrace fkSh fkEl fkWr a b c fkSwitch frame

theorem holdTrace_no_xformT (fkSh fkEl fkWr : Node) (fkSwitch fkVis ikVis : AttrVal)
    (p : ℚ) (a0 : Plug → ℚ) :
    ∀ e ∈ ikToFkHoldTrace fkSh fkEl fkWr fkSwitch fkVis ikVis p a0,
      e.isXformT = false := by
  intro e he
  simp only [ikToFkHoldTrace, rotKeyTrace, List.cons_append, List.nil_append,
    List.append_assoc] at he
  fin_cases he <;> rfl

theorem applyTrace_no_xformT (fkSh fkEl fkWr : Node) (a b c : Vec3)
    (fkSwitch : AttrVal) (frame : ℚ) :
    ∀ e ∈ ikToFkApplyTrace fkSh fkEl fkWr a b c fkSwitch frame,
      e.isXformT = false := by
  intro e he
  simp only [ikToFkApplyTrace, rotKeyTrace, List.cons_append, List.nil_append,
    List.append_assoc] at he
  fin_cases he <;> rfl

theorem holdTrace_keyChannel (fkSh fkEl fkWr : Node) (fkSwitch fkVis ikVis : AttrVal)
    (p : ℚ) (a0 : Plug → ℚ) :
    ∀ n ch t, Event.keyChannel n ch t ∈
        ikToFkHoldTrace fkSh fkEl fkWr fkSwitch fkVis ikVis p a0 →
      ch = "rotateX" ∨ ch = "rotateY" ∨ ch = "rotateZ" := by
  intro n ch t h
  simp only [ikToFkHoldTrace, rotKeyTrace, List.cons_append, List.nil_append,
    List.append_assoc, List.mem_cons, List.not_mem_nil, or_false,
    Event.keyChannel.injEq, reduceCtorEq] at h
  tauto

theorem applyTrace_keyChannel (fkSh fkEl fkWr : Node) (a b c : Vec3)
    (fkSwitch : AttrVal) (frame : ℚ) :
    ∀ n ch t, Event.keyChannel n ch t ∈
        ikToFkApplyTrace fkSh fkEl fkWr a b c fkSwitch frame →
      ch = "rotateX" ∨ ch = "rotateY" ∨ ch = "rotateZ" := by
  intro n ch t h
  simp only [ikToFkApplyTrace, rotKeyTrace, List.cons_append, List.nil_append,
    List.append_assoc, List.mem_cons, List.not_mem_nil, or_false,
    Event.keyChannel.injEq, reduceCtorEq] at h
  tauto

theorem holdTrace_setAttr (fkSh fkEl fkWr : Node) (fkSwitch fkVis ikVis : AttrVal)
    (p : ℚ) (a0 : Plug → ℚ) :
    ∀ q v, Event.setAttr q v ∈
        ikToFkHoldTrace fkSh fkEl fkWr fkSwitch fkVis ikVis p a0 → False := by
  intro q v h
  simp only [ikToFkHoldTrace, rotKeyTrace, List.cons_append, List.nil_append,
    List.append_assoc, List.mem_cons, List.not_mem_nil, or_false, reduceCtorEq] at h

theorem applyTrace_setAttr (fkSh fkEl fkWr : Node) (a b c : Vec3)
    (fkSwitch : AttrVal) (frame : ℚ) :
    ∀ q v, Event.setAttr q v ∈
        ikToFkApplyTrace fkSh fkEl fkWr a b c fkSwitch frame →
      q = fkSwitch.plug ∧ v = fkSwitch.value := by
  intro q v h
  simp only [ikToFkApplyTrace, rotKeyTrace, List.cons_append, List.nil_append,
    List.append_assoc, List.mem_cons, List.not_mem_nil, or_false, false_or,
    Event.setAttr.injEq, reduceCtorEq] at h
  exact h

/-- C9: an IK→FK apply step `set_ik_to_fk_switch` writes and keys only
rotation channels: its appended trace contains no world-translation
write at all, every transform-channel key it sets is a rotation channel
(so no translation or scale channel of the FK controls — or of anything
else — is keyed), the only attribute write is the FK switch driver, and
each FK control receives a world-rotation write and rotation keys at
`frame`. -/
theorem c9_ik_to_fk_rotation_only (env : Env) (fkSh fkEl fkWr : Node)
    (a b c : Vec3) (fkSwitch fkVis ikVis : AttrVal) (frame : ℚ) (prev : Option ℚ)
    (s : SceneState) (hF : env.failAt = none) (h1 : env.objExists fkSh = true)
    (h2 : env.objExists fkEl = true) (h3 : env.objExists fkWr = true) :
    ∃ s',
      set_ik_to_fk_switch env fkSh fkEl fkWr (some a) (some b) (some c)
        fkSwitch fkVis ikVis frame prev s = .ok s' ∧
      s'.trace = s.trace ++
        ikToFkTrace fkSh fkEl fkWr a b c fkSwitch fkVis ikVis frame prev s.attrs ∧
      (∀ e ∈ ikToFkTrace fkSh fkEl fkWr a b c fkSwitch fkVis ikVis frame prev s.attrs,
        e.isXformT = false) ∧
      (∀ n ch t, Event.keyChannel n ch t ∈
          ikToFkTrace fkSh fkEl fkWr a b c fkSwitch fkVis ikVis frame prev s.attrs →
        ch = "rotateX" ∨ ch = "rotateY" ∨ ch = "rotateZ") ∧
      (∀ q v, Event.setAttr q v ∈
          ikToFkTrace fkSh fkEl fkWr a b c fkSwitch fkVis ikVis frame prev s.attrs →
        q = fkSwitch.plug ∧ v = fkSwitch.value) ∧
      Event.xformR fkSh a ∈
        ikToFkTrace fkSh fkEl fkWr a b c fkSwitch fkVis ikVis frame prev s.attrs ∧
      Event.xformR fkEl b ∈
        ikToFkTrace fkSh fkEl fkWr a b c fkSwitch fkVis ikVis frame prev s.attrs ∧
      Event.xformR fkWr c ∈
        ikToFkTrace fkSh fkEl fkWr a b c fkSwitch fkVis ikVis frame prev s.attrs ∧
      (∀ x ∈ [fkSh, fkEl, fkWr], ∀ ch ∈ ["rotateX", "rotateY", "rotateZ"],
        Event.keyChannel x ch frame ∈
          ikToFkTrace fkSh fkEl fkWr a b c fkSwitch fkVis ikVis frame prev s.attrs) := by
  have hprops :
      (∀ e ∈ ikToFkTrace fkSh fkEl fkWr a b c fkSwitch fkVis ikVis frame prev s.attrs,
        e.isXformT = false) ∧
      (∀ n ch t, Event.keyChannel n ch t ∈
          ikToFkTrace fkSh fkEl fkWr a b c fkSwitch fkVis ikVis frame prev s.attrs →
        ch = "rotateX" ∨ ch = "rotateY" ∨ ch = "rotateZ") ∧
      (∀ q v, Event.setAttr q v ∈
          ikToFkTrace fkSh fkEl fkWr a b c fkSwitch fkVis ikVis frame prev s.attrs →
        q = fkSwitch.plug ∧ v = fkSwitch.value) := by
    refine ⟨?_, ?_, ?_⟩
    · intro e he
      simp only [ikToFkTrace] at he
      rcases List.mem_append.mp he with h | h
      · split at h
        · exact holdTrace_no_xformT fkSh fkEl fkWr fkSwitch fkVis ikVis _ _ e h
        · simp at h
      · exact applyTrace_no_xformT fkSh fkEl fkWr a b c fkSwitch frame e h
    · intro n ch t hx
      simp only [ikToFkTrace] at hx
      rcases List.mem_append.mp hx with h | h
      · split at h
        · exact holdTrace_keyChannel fkSh fkEl fkWr fkSwitch fkVis ikVis _ _ n ch t h
        · simp at h
      · exact applyTrace_keyChannel fkSh fkEl fkWr a b c fkSwitch frame n ch t h
    · intro q v hx
      simp only [ikToFkTrace] at hx
      rcases List.mem_append.mp hx with h | h
      · split at h
        · exact absurd h (fun hh =>
            holdTrace_setAttr fkSh fkEl fkWr fkSwitch fkVis ikVis _ _ q v hh)
        · simp at h
      · exact applyTrace_setAttr fkSh fkEl fkWr a b c fkSwitch frame q v h
  have hmem : Event.xformR fkSh a ∈
        ikToFkTrace fkSh fkEl fkWr a b c fkSwitch fkVis ikVis frame prev s.attrs ∧
      Event.xformR fkEl b ∈
        ikToFkTrace fkSh fkEl fkWr a b c fkSwitch fkVis ikVis frame prev s.attrs ∧
      Event.xformR fkWr c ∈
        ikToFkTrace fkSh fkEl fkWr a b c fkSwitch fkVis ikVis frame prev s.attrs ∧
      (∀ x ∈ [fkSh, fkEl, fkWr], ∀ ch ∈ ["rotateX", "rotateY", "rotateZ"],
        Event.keyChannel x ch frame ∈
          ikToFkTrace fkSh fkEl fkWr a b c fkSwitch fkVis ikVis frame prev s.attrs) := by
    refine ⟨?_, ?_, ?_, ?_⟩
    · simp [ikToFkTrace, ikToFkApplyTrace, rotKeyTrace]
    · simp [ikToFkTrace, ikToFkApplyTrace, rotKeyTrace]
    · simp [ikToFkTrace, ikToFkApplyTrace, rotKeyTrace]
    · intro x hx ch hch
      fin_cases hx <;> fin_cases hch <;> simp [ikToFkTrace, ikToFkApplyTrace, rotKeyTrace]
  by_cases hp : pyTruthy prev = true
  all_goals
    simp only [set_ik_to_fk_switch, hp, if_true, if_false, Bool.false_eq_true,
      xformRotValue, doCurrentTime, doSetAttr, doSetKeyframe, doKeyChannel, doXformR,
      mutStep, hF, create_transform_keys, keyObjsLoop, keyChansLoop, chanPairs, flagsR,
      h1, h2, h3, List.filter, bindE_ok, bindE_error, reduceCtorEq, updA,
      List.isEmpty_cons, Bool.false_and, Bool.and_self, ite_true, ite_false]
  all_goals exact ⟨_, rfl,
    by simp [ikToFkTrace, ikToFkHoldTrace, ikToFkApplyTrace, rotKeyTrace, hp,
      List.append_assoc],
    hprops.1, hprops.2.1, hprops.2.2, hmem.1, hmem.2.1, hmem.2.2.1, hmem.2.2.2⟩

/-- Witness for C9 at a concrete rig, frame 5 holding frame 4. -/
theorem c9_witness :
    env0.failAt = none ∧ env0.objExists "fkSh" = true ∧ env0.objExists "fkEl" = true ∧
    env0.objExists "fkWr" = true ∧
    (∃ s',
      set_ik_to_fk_switch env0 "fkSh" "fkEl" "fkWr" (some (1,2,3)) (some (4,5,6))
        (some (7,8,9)) ⟨⟨"sw","fk"⟩,1⟩ ⟨⟨"sw","fkv"⟩,1⟩ ⟨⟨"sw","ikv"⟩,0⟩ 5 (some 4) s0 = .ok s' ∧
      s'.trace = s0.trace ++ ikToFkTrace "fkSh" "fkEl" "fkWr" (1,2,3) (4,5,6) (7,8,9) ⟨⟨"sw","fk"⟩,1⟩ ⟨⟨"sw","fkv"⟩,1⟩ ⟨⟨"sw","ikv"⟩,0⟩ 5 (some 4) s0.attrs ∧
      (∀ e ∈ ikToFkTrace "fkSh" "fkEl" "fkWr" (1,2,3) (4,5,6) (7,8,9) ⟨⟨"sw","fk"⟩,1⟩ ⟨⟨"sw","fkv"⟩,1⟩ ⟨⟨"sw","ikv"⟩,0⟩ 5 (some 4) s0.attrs, e.isXformT = false) ∧
      (∀ n ch t, Event.keyChannel n ch t ∈ ikToFkTrace "fkSh" "fkEl" "fkWr" (1,2,3) (4,5,6) (7,8,9) ⟨⟨"sw","fk"⟩,1⟩ ⟨⟨"sw","fkv"⟩,1⟩ ⟨⟨"sw","ikv"⟩,0⟩ 5 (some 4) s0.attrs →
        ch = "rotateX" ∨ ch = "rotateY" ∨ ch = "rotateZ") ∧
      (∀ q v, Event.setAttr q v ∈ ikToFkTrace "fkSh" "fkEl" "fkWr" (1,2,3) (4,5,6) (7,8,9) ⟨⟨"sw","fk"⟩,1⟩ ⟨⟨"sw","fkv"⟩,1⟩ ⟨⟨"sw","ikv"⟩,0⟩ 5 (some 4) s0.attrs →
        q = (⟨⟨"sw","fk"⟩,1⟩ : AttrVal).plug ∧ v = (⟨⟨"sw","fk"⟩,1⟩ : AttrVal).value) ∧
      Event.xformR "fkSh" (1,2,3) ∈ ikToFkTrace "fkSh" "fkEl" "fkWr" (1,2,3) (4,5,6) (7,8,9) ⟨⟨"sw","fk"⟩,1⟩ ⟨⟨"sw","fkv"⟩,1⟩ ⟨⟨"sw","ikv"⟩,0⟩ 5 (some 4) s0.attrs ∧
      Event.xformR "fkEl" (4,5,6) ∈ ikToFkTrace "fkSh" "fkEl" "fkWr" (1,2,3) (4,5,6) (7,8,9) ⟨⟨"sw","fk"⟩,1⟩ ⟨⟨"sw","fkv"⟩,1⟩ ⟨⟨"sw","ikv"⟩,0⟩ 5 (some 4) s0.attrs ∧
      Event.xformR "fkWr" (7,8,9) ∈ ikToFkTrace "fkSh" "fkEl" "fkWr" (1,2,3) (4,5,6) (7,8,9) ⟨⟨"sw","fk"⟩,1⟩ ⟨⟨"sw","fkv"⟩,1⟩ ⟨⟨"sw","ikv"⟩,0⟩ 5 (some 4) s0.attrs ∧
      (∀ x ∈ ["fkSh", "fkEl", "fkWr"], ∀ ch ∈ ["rotateX", "rotateY", "rotateZ"],
        Event.keyChannel x ch 5 ∈ ikToFkTrace "fkSh" "fkEl" "fkWr" (1,2,3) (4,5,6) (7,8,9) ⟨⟨"sw","fk"⟩,1⟩ ⟨⟨"sw","fkv"⟩,1⟩ ⟨⟨"sw","ikv"⟩,0⟩ 5 (some 4) s0.attrs)) :=
  ⟨rfl, rfl, rfl, rfl,
    c9_ik_to_fk_rotation_only env0 "fkSh" "fkEl" "fkWr" (1,2,3) (4,5,6) (7,8,9)
      ⟨⟨"sw","fk"⟩,1⟩ ⟨⟨"sw","fkv"⟩,1⟩ ⟨⟨"sw","ikv"⟩,0⟩ 5 (some 4) s0 rfl rfl rfl rfl⟩

/-- The windowed keyframe set a bake-at-keyframes run operates on: the
sorted deduplicated key-time query, filtered to `[start, end]` when the
time-range checkbox is set. -/
def windowedOf (env : Env) (nodes : List Node) (ui : SpaceUI) : List ℚ :=
  let ks := sortTimes (env.keyTimes nodes).dedup
  if ui.useTimeRange then
    ks.filter (fun k => decide ((ui.startFrame : ℚ) ≤ k) && decide (k ≤ (ui.endFrame : ℚ)))
  else ks

/-- C5: a switch request holding a node or attribute reference that no
longer resolves fails re-validation, and both `space_switch` and
`ikfk_switch` then add exactly one warning event and return: no
`setAttr`, no keyframe, no `xform` write, no time edit — no scene
mutation at all. -/
theorem c5_validation_gating :
    (∀ (env : Env) (d : SpaceData) (ui : SpaceUI) (s : SceneState) (sa ta : AttrVal),
      d.source = some sa → d.target = some ta →
      (env.objExists d.control = false ∨
       env.objExists sa.plug.node = false ∨
       env.attrExists sa.plug.node sa.plug.attr = false ∨
       env.objExists ta.plug.node = false ∨
       env.attrExists ta.plug.node ta.plug.attr = false) →
      space_switch env d ui s =
        s.withEvent (.warn "Attributes and control are invalid! Please follow instruction!")) ∧
    (∀ (env : Env) (d : IkfkData) (ui : SpaceUI) (flag : Bool) (s : SceneState)
       (fs fv isw iv : AttrVal),
      d.fkSwitch = some fs → d.fkVis = some fv → d.ikSwitch = some isw → d.ikVis = some iv →
      (env.objExists d.shoulderJnt = false ∨ env.objExists d.elbowJnt = false ∨
       env.objExists d.wristJnt = false ∨ env.objExists d.fkShoulder = false ∨
       env.objExists d.fkElbow = false ∨ env.objExists d.fkWrist = false ∨
       env.objExists d.ikElbow = false ∨ env.objExists d.ikWrist = false ∨
       env.objExists fs.plug.node = false ∨
       env.attrExists fs.plug.node fs.plug.attr = false ∨
       env.objExists fv.plug.node = false ∨
       env.attrExists fv.plug.node fv.plug.attr = false ∨
       env.objExists isw.plug.node = false ∨
       env.attrExists isw.plug.node isw.plug.attr = false ∨
       env.objExists iv.plug.node = false ∨
       env.attrExists iv.plug.node iv.plug.attr = false) →
      ikfk_switch env d ui flag s = .ok (s.withEvent (.warn
        "Either joints, controls or attributes loaded are invalid! Please read the tooltip of each button for instruction."))) := by
  constructor
  · intro env d ui s sa ta hsa hta h
    have hv : validate_space_switch_data env d = false := by
      rcases h with h | h | h | h | h <;>
        simp [validate_space_switch_data, checkControlEntry, checkAttrEntry, hsa, hta, h]
    simp [space_switch, hv]
  · intro env d ui flag s fs fv isw iv hfs hfv hisw hiv h
    have hv : validate_ikfk_switch_data env d = false := by
      rcases h with h|h|h|h|h|h|h|h|h|h|h|h|h|h|h|h <;>
        simp [validate_ikfk_switch_data, checkControlEntry, checkAttrEntry,
          hfs, hfv, hisw, hiv, h]
    simp [ikfk_switch, hv]

/-- A host environment in which the node `"gone"` no longer exists. -/
def envBad : Env := { env0 with objExists := fun n => !(n == "gone") }

/-- Witness for C5: a space spec whose control was deleted, and an ikfk
spec whose shoulder joint was deleted. -/
theorem c5_witness :
    envBad.objExists "gone" = false ∧
    space_switch envBad ⟨"space switch", "gone", some ⟨⟨"a", "x"⟩, 0⟩, some ⟨⟨"b", "y"⟩, 1⟩⟩
        ⟨.currentFrame, false, 0, 10⟩ s0 =
      s0.withEvent (.warn "Attributes and control are invalid! Please follow instruction!") ∧
    ikfk_switch envBad
        ⟨"ikfk switch", "gone", "elJ", "wrJ", "fkSh", "fkEl", "fkWr",
          some ⟨⟨"sw", "fk"⟩, 1⟩, some ⟨⟨"sw", "fkv"⟩, 1⟩, "ikEl", "ikw",
          some ⟨⟨"sw", "ik"⟩, 1⟩, some ⟨⟨"sw", "ikv"⟩, 1⟩⟩
        ⟨.currentFrame, false, 0, 10⟩ true s0 =
      .ok (s0.withEvent (.warn
        "Either joints, controls or attributes loaded are invalid! Please read the tooltip of each button for instruction.")) :=
  ⟨rfl,
   c5_validation_gating.1 envBad
     ⟨"space switch", "gone", some ⟨⟨"a", "x"⟩, 0⟩, some ⟨⟨"b", "y"⟩, 1⟩⟩
     ⟨.currentFrame, false, 0, 10⟩ s0 ⟨⟨"a", "x"⟩, 0⟩ ⟨⟨"b", "y"⟩, 1⟩ rfl rfl (Or.inl rfl),
   c5_validation_gating.2 envBad
     ⟨"ikfk switch", "gone", "elJ", "wrJ", "fkSh", "fkEl", "fkWr",
       some ⟨⟨"sw", "fk"⟩, 1⟩, some ⟨⟨"sw", "fkv"⟩, 1⟩, "ikEl", "ikw",
       some ⟨⟨"sw", "ik"⟩, 1⟩, some ⟨⟨"sw", "ikv"⟩, 1⟩⟩
     ⟨.currentFrame, false, 0, 10⟩ true s0 ⟨⟨"sw", "fk"⟩, 1⟩ ⟨⟨"sw", "fkv"⟩, 1⟩
     ⟨⟨"sw", "ik"⟩, 1⟩ ⟨⟨"sw", "ikv"⟩, 1⟩ rfl rfl rfl rfl (Or.inl rfl)⟩

/-- C6: a bake-at-keyframes request whose windowed keyframe set is empty
warns and aborts with no scene mutation on either path.  The space
switch emits exactly the undo/viewport resource events, the
"No keys to bake!" warning and the try-block warning from the escape
`raise`; the ikfk switch emits exactly the warning (its resource
handling is commented out). -/
theorem c6_empty_sample_abort :
    (∀ (env : Env) (d : SpaceData) (ui : SpaceUI) (s : SceneState) (sa ta : AttrVal),
      validate_space_switch_data env d = true →
      d.source = some sa → d.target = some ta →
      ui.mode = BakeMode.bakeKeyframes →
      windowedOf env [d.control] ui = [] →
      space_switch env d ui s = { s with trace := s.trace ++
        [.openChunk, .lockViewport, .warn "No keys to bake!",
         .warn "There is an Error in try block!", .unlockViewport, .closeChunk] }) ∧
    (∀ (env : Env) (d : IkfkData) (ui : SpaceUI) (flag : Bool) (s : SceneState)
       (fs fv isw iv : AttrVal),
      validate_ikfk_switch_data env d = true →
      d.fkSwitch = some fs → d.fkVis = some fv → d.ikSwitch = some isw → d.ikVis = some iv →
      ui.mode = BakeMode.bakeKeyframes →
      (flag = true → check_fk_rotate_order env d.shoulderJnt d.elbowJnt d.wristJnt
        d.fkShoulder d.fkElbow d.fkWrist = true) →
      windowedOf env (if flag then [d.ikElbow, d.ikWrist]
        else [d.fkShoulder, d.fkElbow, d.fkWrist]) ui = [] →
      ikfk_switch env d ui flag s = .ok (s.withEvent (.warn "No keys to bake!"))) := by
  constructor
  · intro env d ui s sa ta hval hsa hta hmode hw
    simp only [windowedOf] at hw
    simp only [space_switch, hval, if_true, space_switch_body, hsa, hta, hmode,
      bake_keyframes_branch, hw, List.isEmpty_nil, if_pos, reduceCtorEq,
      ite_true, SceneState.withEvent, bindE_ok, bindE_error, List.append_assoc,
      List.cons_append, List.nil_append, List.singleton_append]
  · intro env d ui flag s fs fv isw iv hval hfs hfv hisw hiv hmode hrot hw
    rcases Bool.eq_false_or_eq_true flag with hfl | hfl <;> subst hfl
    · have hr := hrot rfl
      simp only [windowedOf, reduceIte] at hw
      simp only [ikfk_switch, hval, reduceIte, hfs, hfv, hisw, hiv, hr,
        ikfk_switch_main, hmode]
      rw [hw]
      simp
    · simp only [windowedOf, Bool.false_eq_true, reduceIte] at hw
      simp only [ikfk_switch, hval, reduceIte, Bool.false_eq_true, hfs, hfv, hisw, hiv,
        ikfk_switch_main, hmode]
      rw [hw]
      simp

/-- a valid space-switch spec against the baseline environment -/
def dSpace0 : SpaceData :=
  ⟨"space switch", "ctl", some ⟨⟨"a", "x"⟩, 0⟩, some ⟨⟨"b", "y"⟩, 1⟩⟩

/-- a valid ikfk-switch spec against the baseline environment -/
def dIkfk0 : IkfkData :=
  ⟨"ikfk switch", "shJ", "elJ", "wrJ", "fkSh", "fkEl", "fkWr",
    some ⟨⟨"sw", "fk"⟩, 1⟩, some ⟨⟨"sw", "fkv"⟩, 1⟩, "ikEl", "ikw",
    some ⟨⟨"sw", "ik"⟩, 1⟩, some ⟨⟨"sw", "ikv"⟩, 1⟩⟩

/-- a bake-at-keyframes run windowed to `[20, 30]`, where the baseline
environment has no keyframes -/
def uiW : SpaceUI := ⟨.bakeKeyframes, true, 20, 30⟩

/-- Witness for C6: baking a window that contains no keyframe. -/
theorem c6_witness :
    validate_space_switch_data env0 dSpace0 = true ∧
    uiW.mode = BakeMode.bakeKeyframes ∧
    windowedOf env0 [dSpace0.control] uiW = [] ∧
    space_switch env0 dSpace0 uiW s0 = { s0 with trace := s0.trace ++
      [.openChunk, .lockViewport, .warn "No keys to bake!",
       .warn "There is an Error in try block!", .unlockViewport, .closeChunk] } ∧
    validate_ikfk_switch_data env0 dIkfk0 = true ∧
    windowedOf env0 (if (true : Bool) then [dIkfk0.ikElbow, dIkfk0.ikWrist]
      else [dIkfk0.fkShoulder, dIkfk0.fkElbow, dIkfk0.fkWrist]) uiW = [] ∧
    ikfk_switch env0 dIkfk0 uiW true s0 = .ok (s0.withEvent (.warn "No keys to bake!")) := by
  have hw1 : windowedOf env0 [dSpace0.control] uiW = [] := by
    norm_num [windowedOf, sortTimes, insertSorted, env0, uiW, dSpace0]
  have hw2 : windowedOf env0 (if (true : Bool) then [dIkfk0.ikElbow, dIkfk0.ikWrist]
      else [dIkfk0.fkShoulder, dIkfk0.fkElbow, dIkfk0.fkWrist]) uiW = [] := by
    norm_num [windowedOf, sortTimes, insertSorted, env0, uiW, dIkfk0]
  exact ⟨rfl, rfl, hw1,
    c6_empty_sample_abort.1 env0 dSpace0 uiW s0 ⟨⟨"a", "x"⟩, 0⟩ ⟨⟨"b", "y"⟩, 1⟩
      rfl rfl rfl rfl hw1,
    rfl, hw2,
    c6_empty_sample_abort.2 env0 dIkfk0 uiW true s0 ⟨⟨"sw", "fk"⟩, 1⟩ ⟨⟨"sw", "fkv"⟩, 1⟩
      ⟨⟨"sw", "ik"⟩, 1⟩ ⟨⟨"sw", "ikv"⟩, 1⟩ rfl rfl rfl rfl rfl rfl
      (fun _ => rfl) hw2⟩

/-- The state a fallible computation ends in, whether it returned or
raised (the carried state of either branch). -/
def outState : Except SceneState SceneState → SceneState
  | .ok s => s
  | .error s => s

/-- `outState` for value-returning computations. -/
def outStateP {α : Type} : Except SceneState (SceneState × α) → SceneState
  | .ok (s, _) => s
  | .error s => s

/-- `t`'s trace extends `s`'s by resource-free events only: the body of
the `try` block never touches the undo chunk or the viewport lock. -/
def NoResExt (s t : SceneState) : Prop :=
  ∃ ext, t.trace = s.trace ++ ext ∧ ∀ e ∈ ext, e.isResource = false

theorem nores_refl (s : SceneState) : NoResExt s s :=
  ⟨[], by simp, by simp⟩

theorem nores_trans {s t u : SceneState} (h1 : NoResExt s t) (h2 : NoResExt t u) :
    NoResExt s u := by
  obtain ⟨e1, ht, hr1⟩ := h1
  obtain ⟨e2, hu, hr2⟩ := h2
  refine ⟨e1 ++ e2, by simp [hu, ht], ?_⟩
  intro e he
  rcases List.mem_append.mp he with h | h
  exacts [hr1 e h, hr2 e h]

theorem nores_withEvent (s : SceneState) (e : Event) (he : e.isResource = false) :
    NoResExt s (s.withEvent e) :=
  ⟨[e], rfl, by simpa⟩

theorem nores_mutStep (env : Env) (e : Event) (f : SceneState → SceneState)
    (s : SceneState) (he : e.isResource = false) :
    NoResExt s (outState (mutStep env e f s)) := by
  unfold mutStep
  split
  · exact nores_refl s
  · exact ⟨[e], rfl, by simpa⟩

theorem nores_doCurrentTime (env : Env) (t : ℚ) (s : SceneState) :
    NoResExt s (outState (doCurrentTime env t s)) := nores_mutStep env _ _ s rfl

theorem nores_doSetAttr (env : Env) (p : Plug) (v : ℚ) (s : SceneState) :
    NoResExt s (outState (doSetAttr env p v s)) := nores_mutStep env _ _ s rfl

theorem nores_doSetKeyframe (env : Env) (p : Plug) (s : SceneState) :
    NoResExt s (outState (doSetKeyframe env p s)) := nores_mutStep env _ _ s rfl

theorem nores_doKeyChannel (env : Env) (n : Node) (ch : String) (t : ℚ) (s : SceneState) :
    NoResExt s (outState (doKeyChannel env n ch t s)) := nores_mutStep env _ _ s rfl

theorem nores_doXformT (env : Env) (n : Node) (v : Vec3) (s : SceneState) :
    NoResExt s (outState (doXformT env n v s)) := nores_mutStep env _ _ s rfl

theorem nores_doXformR (env : Env) (n : Node) (v : Vec3) (s : SceneState) :
    NoResExt s (outState (doXformR env n v s)) := nores_mutStep env _ _ s rfl

theorem nores_bind_ss {s : SceneState} {r : Except SceneState SceneState}
    {f : SceneState → Except SceneState SceneState}
    (h1 : NoResExt s (outState r)) (h2 : ∀ t, NoResExt t (outState (f t))) :
    NoResExt s (outState (bindE r f)) := by
  cases r with
  | error t => exact h1
  | ok t => exact nores_trans h1 (h2 t)

theorem nores_bind_sp {β : Type} {s : SceneState} {r : Except SceneState SceneState}
    {f : SceneState → Except SceneState (SceneState × β)}
    (h1 : NoResExt s (outState r)) (h2 : ∀ t, NoResExt t (outStateP (f t))) :
    NoResExt s (outStateP (bindE r f)) := by
  cases r with
  | error t => exact h1
  | ok t => exact nores_trans h1 (h2 t)

theorem nores_bind_ps {α : Type} {s : SceneState}
    {r : Except SceneState (SceneState × α)}
    {f : SceneState × α → Except SceneState SceneState}
    (h1 : NoResExt s (outStateP r)) (h2 : ∀ t a, NoResExt t (outState (f (t, a)))) :
    NoResExt s (outState (bindE r f)) := by
  cases r with
  | error t => exact h1
  | ok p =>
    cases p with
    | mk t a => exact nores_trans h1 (h2 t a)

theorem nores_bind_pp {α β : Type} {s : SceneState}
    {r : Except SceneState (SceneState × α)}
    {f : SceneState × α → Except SceneState (SceneState × β)}
    (h1 : NoResExt s (outStateP r)) (h2 : ∀ t a, NoResExt t (outStateP (f (t, a)))) :
    NoResExt s (outStateP (bindE r f)) := by
  cases r with
  | error t => exact h1
  | ok p =>
    cases p with
    | mk t a => exact nores_trans h1 (h2 t a)

theorem nores_apply_world_matrix (env : Env) (ctl : Node) (mat : Option Pose)
    (s : SceneState) : NoResExt s (outState (apply_world_matrix env ctl mat s)) := by
  unfold apply_world_matrix
  split
  · split
    · exact nores_bind_ss (nores_doXformT env ctl _ s) (fun t => nores_doXformR env ctl _ t)
    · exact nores_refl s
  · exact nores_refl s

theorem nores_keyChansLoop (env : Env) (o : Node) (t : ℚ) :
    ∀ (l : List (String × Bool)) (s : SceneState),
      NoResExt s (outState (keyChansLoop env o t l s)) := by
  intro l
  induction l with
  | nil => intro s; exact nores_refl s
  | cons p rest ih =>
    intro s
    cases p with
    | mk ch b =>
      unfold keyChansLoop
      split
      · exact nores_bind_ss (nores_doKeyChannel env o ch t s) ih
      · exact ih s

theorem nores_keyObjsLoop (env : Env) (t : ℚ) (fl : ChanFlags) :
    ∀ (l : List Node) (s : SceneState),
      NoResExt s (outState (keyObjsLoop env t fl l s)) := by
  intro l
  induction l with
  | nil => intro s; exact nores_refl s
  | cons o os ih =>
    intro s
    exact nores_bind_ss (nores_keyChansLoop env o t (chanPairs fl) s) ih

theorem nores_create_transform_keys (env : Env) (objects : List Node)
    (time : Option ℚ) (fl : ChanFlags) (s : SceneState) :
    NoResExt s (outState (create_transform_keys env objects time fl s)) := by
  simp only [create_transform_keys]
  repeat' split
  all_goals first
    | exact nores_refl s
    | exact nores_keyObjsLoop env _ fl _ s

theorem nores_set_space_switch (env : Env) (frame : ℚ) (ctl : Node)
    (sp : Plug) (sv : ℚ) (tp : Plug) (tv : ℚ) (s : SceneState) :
    NoResExt s (outState (set_space_switch env frame ctl sp sv tp tv s)) := by
  unfold set_space_switch
  refine nores_bind_ss (nores_doCurrentTime env frame s) fun t1 => ?_
  refine nores_bind_ss (nores_doCurrentTime env _ t1) fun t2 => ?_
  refine nores_bind_ss (nores_doSetAttr env sp sv t2) fun t3 => ?_
  refine nores_bind_ss (nores_doSetKeyframe env sp t3) fun t4 => ?_
  refine nores_bind_ss (nores_create_transform_keys env [ctl] none flagsTR t4) fun t5 => ?_
  refine nores_bind_ss (nores_doCurrentTime env frame t5) fun t6 => ?_
  refine nores_bind_ss (nores_doSetAttr env tp tv t6) fun t7 => ?_
  refine nores_bind_ss (nores_doSetKeyframe env tp t7) fun t8 => ?_
  exact nores_bind_ss (nores_apply_world_matrix env ctl _ t8)
    (fun t9 => nores_create_transform_keys env [ctl] none flagsTR t9)

theorem nores_captureLoop (env : Env) (sp : Plug) (sv : ℚ) (ctl : Node) :
    ∀ (ks : List ℚ) (s : SceneState),
      NoResExt s (outStateP (captureLoop env sp sv ctl ks s)) := by
  intro ks
  induction ks with
  | nil => intro s; exact nores_refl s
  | cons k rest ih =>
    intro s
    unfold captureLoop
    refine nores_bind_sp (nores_doCurrentTime env k s) fun t1 => ?_
    refine nores_bind_sp (nores_doSetAttr env sp sv t1) fun t2 => ?_
    refine nores_bind_sp (nores_doSetKeyframe env sp t2) fun t3 => ?_
    exact nores_bind_pp (ih t3) (fun t a => nores_refl t)

theorem nores_interiorLoop (env : Env) (tp : Plug) (tv : ℚ) (ctl : Node) :
    ∀ (l : List (ℚ × Option Pose)) (s : SceneState),
      NoResExt s (outState (interiorLoop env tp tv ctl l s)) := by
  intro l
  induction l with
  | nil => intro s; exact nores_refl s
  | cons p rest ih =>
    intro s
    cases p with
    | mk k m =>
      unfold interiorLoop
      refine nores_bind_ss (nores_doCurrentTime env k s) fun t1 => ?_
      refine nores_bind_ss (nores_doSetAttr env tp tv t1) fun t2 => ?_
      refine nores_bind_ss (nores_doSetKeyframe env tp t2) fun t3 => ?_
      refine nores_bind_ss (nores_apply_world_matrix env ctl m t3) fun t4 => ?_
      exact nores_bind_ss (nores_create_transform_keys env [ctl] none flagsTR t4) ih

theorem nores_bake_keyframes_branch (env : Env) (ctl : Node) (sp : Plug) (sv : ℚ)
    (tp : Plug) (tv : ℚ) (ref_keys keyframes : List ℚ)
    (s : SceneState) :
    NoResExt s (outState
      (bake_keyframes_branch env ctl sp sv tp tv ref_keys keyframes s)) := by
  simp only [bake_keyframes_branch]
  split
  · exact nores_withEvent s _ rfl
  · refine nores_bind_ps (nores_captureLoop env sp sv ctl _ s) fun t1 a1 => ?_
    dsimp only
    refine nores_bind_ps ?_ fun t2 a2 => ?_
    · split
      · refine nores_bind_sp (nores_doCurrentTime env _ t1) fun u1 => ?_
        dsimp only
        exact nores_bind_sp (nores_doCurrentTime env _ u1) fun u2 => nores_refl u2
      · exact nores_refl t1
    · dsimp only
      refine nores_bind_ps ?_ fun t3 a3 => ?_
      · split
        · exact nores_bind_sp (nores_set_space_switch env _ ctl sp sv tp tv t2)
            fun u => nores_refl u
        · exact nores_refl t2
      · dsimp only
        refine nores_bind_ps ?_ fun t4 a4 => ?_
        · split
          · split
            · refine nores_bind_sp (nores_doCurrentTime env _ t3) fun u1 => ?_
              refine nores_bind_sp (nores_doSetAttr env sp sv u1) fun u2 => ?_
              refine nores_bind_sp (nores_doSetKeyframe env sp u2) fun u3 => ?_
              refine nores_bind_sp (nores_apply_world_matrix env ctl _ u3) fun u4 => ?_
              refine nores_bind_sp
                (nores_create_transform_keys env [ctl] none flagsTR u4) fun u5 => ?_
              refine nores_bind_sp (nores_doCurrentTime env _ u5) fun u6 => ?_
              refine nores_bind_sp (nores_doSetAttr env tp tv u6) fun u7 => ?_
              refine nores_bind_sp (nores_doSetKeyframe env tp u7) fun u8 => ?_
              refine nores_bind_sp (nores_apply_world_matrix env ctl _ u8) fun u9 => ?_
              exact nores_bind_sp
                (nores_create_transform_keys env [ctl] none flagsTR u9)
                fun u10 => nores_refl u10
            · exact nores_refl t3
          · exact nores_refl t3
        · dsimp only
          exact nores_interiorLoop env tp tv ctl _ t4

theorem nores_bake_everyframe_branch (env : Env) (ctl : Node) (sp : Plug) (sv : ℚ)
    (tp : Plug) (tv : ℚ) (rsq req : ℚ) (keyframes : List ℚ)
    (s : SceneState) :
    NoResExt s (outState
      (bake_everyframe_branch env ctl sp sv tp tv rsq req keyframes s)) := by
  simp only [bake_everyframe_branch]
  refine nores_bind_ps (nores_captureLoop env sp sv ctl _ s) fun t1 a1 => ?_
  dsimp only
  split
  · exact nores_refl t1
  · split
    · exact nores_refl t1
    · refine nores_bind_ps ?_ fun t2 a2 => ?_
      · split
        · exact nores_bind_sp (nores_set_space_switch env _ ctl sp sv tp tv t1)
            fun u => nores_refl u
        · exact nores_refl t1
      · dsimp only
        split
        · exact nores_refl t2
        · refine nores_bind_ps ?_ fun t3 a3 => ?_
          · split
            · exact nores_bind_sp (nores_set_space_switch env _ ctl tp tv sp sv t2)
                fun u => nores_refl u
            · exact nores_refl t2
          · dsimp only
            exact nores_interiorLoop env tp tv ctl _ t3

theorem nores_space_switch_body (env : Env) (d : SpaceData) (ui : SpaceUI)
    (s : SceneState) : NoResExt s (outState (space_switch_body env d ui s)) := by
  simp only [space_switch_body]
  split
  · split
    · exact nores_set_space_switch env _ _ _ _ _ _ s
    · refine nores_bind_ss ?_ fun t => nores_doCurrentTime env _ t
      split
      · exact nores_bake_keyframes_branch env _ _ _ _ _ _ _ s
      · exact nores_bake_everyframe_branch env _ _ _ _ _ _ _ _ s
  · exact nores_refl s

/-- C4 (amended, space switch half): a validated `space_switch` run, on
every exit path — normal completion, the explicit escape `raise`, or a
host exception injected at any mutating call — opens the undo chunk and
locks the viewport first, never touches either resource inside the body,
and closes/unlocks each exactly once at the very end. -/
theorem c4_scoped_resource_release (env : Env) (d : SpaceData) (ui : SpaceUI)
    (s : SceneState) (hval : validate_space_switch_data env d = true) :
    ∃ mid,
      (space_switch env d ui s).trace =
        s.trace ++ (.openChunk :: .lockViewport :: (mid ++ [.unlockViewport, .closeChunk])) ∧
      (∀ e ∈ mid, e.isResource = false) ∧
      ((space_switch env d ui s).trace.drop s.trace.length).count .openChunk = 1 ∧
      ((space_switch env d ui s).trace.drop s.trace.length).count .closeChunk = 1 ∧
      ((space_switch env d ui s).trace.drop s.trace.length).count .lockViewport = 1 ∧
      ((space_switch env d ui s).trace.drop s.trace.length).count .unlockViewport = 1 := by
  have hbody := nores_space_switch_body env d ui
    ((s.withEvent Event.openChunk).withEvent Event.lockViewport)
  have hmain : ∃ mid,
      (space_switch env d ui s).trace =
        s.trace ++ (.openChunk :: .lockViewport :: (mid ++ [.unlockViewport, .closeChunk])) ∧
      (∀ e ∈ mid, e.isResource = false) := by
    cases hb : space_switch_body env d ui
        ((s.withEvent Event.openChunk).withEvent Event.lockViewport) with
    | ok t =>
      rw [hb] at hbody
      obtain ⟨ext, hrt, hres⟩ := hbody
      simp only [outState, SceneState.withEvent] at hrt
      refine ⟨ext, ?_, hres⟩
      simp only [space_switch, hval, if_true, hb]
      simp [SceneState.withEvent, hrt, List.append_assoc]
    | error t =>
      rw [hb] at hbody
      obtain ⟨ext, hrt, hres⟩ := hbody
      simp only [outState, SceneState.withEvent] at hrt
      refine ⟨ext ++ [.warn "There is an Error in try block!"], ?_, ?_⟩
      · simp only [space_switch, hval, if_true, hb]
        simp [SceneState.withEvent, hrt, List.append_assoc]
      · intro e he
        rcases List.mem_append.mp he with h | h
        · exact hres e h
        · simp only [List.mem_singleton] at h
          subst h
          rfl
  obtain ⟨mid, htr, hres⟩ := hmain
  have hz : ∀ e : Event, e.isResource = true → mid.count e = 0 := by
    intro e he
    refine List.count_eq_zero.mpr fun hm => ?_
    rw [hres e hm] at he
    exact Bool.false_ne_true he
  have hdrop : (space_switch env d ui s).trace.drop s.trace.length =
      .openChunk :: .lockViewport :: (mid ++ [.unlockViewport, .closeChunk]) := by
    rw [htr, List.drop_left]
  refine ⟨mid, htr, hres, ?_, ?_, ?_, ?_⟩ <;>
    simp [hdrop, List.count_cons, List.count_append,
      hz Event.openChunk rfl, hz Event.closeChunk rfl,
      hz Event.lockViewport rfl, hz Event.unlockViewport rfl]

/-- Witness for C4's amended theorem, on a CurrentFrame switch. -/
theorem c4_witness :
    validate_space_switch_data env0 dSpace0 = true ∧
    (∃ mid,
      (space_switch env0 dSpace0 ⟨.currentFrame, false, 0, 10⟩ s0).trace =
        s0.trace ++ (.openChunk :: .lockViewport :: (mid ++ [.unlockViewport, .closeChunk])) ∧
      (∀ e ∈ mid, e.isResource = false) ∧
      ((space_switch env0 dSpace0 ⟨.currentFrame, false, 0, 10⟩ s0).trace.drop
        s0.trace.length).count .openChunk = 1 ∧
      ((space_switch env0 dSpace0 ⟨.currentFrame, false, 0, 10⟩ s0).trace.drop
        s0.trace.length).count .closeChunk = 1 ∧
      ((space_switch env0 dSpace0 ⟨.currentFrame, false, 0, 10⟩ s0).trace.drop
        s0.trace.length).count .lockViewport = 1 ∧
      ((space_switch env0 dSpace0 ⟨.currentFrame, false, 0, 10⟩ s0).trace.drop
        s0.trace.length).count .unlockViewport = 1) :=
  ⟨rfl, c4_scoped_resource_release env0 dSpace0 ⟨.currentFrame, false, 0, 10⟩ s0 rfl⟩

/-- Counterexample for C4 as stated: a valid CurrentFrame `ikfk_switch`
run mutates the scene (attribute writes, keyframes, time edits) yet
never opens or closes an undo chunk and never locks or unlocks the
viewport — the resource handling in `ikfk_switch` is commented out in
the source. -/
theorem c4_counterexample :
    ∃ s', ikfk_switch env0 dIkfk0 ⟨.currentFrame, false, 0, 10⟩ true s0 = .ok s' ∧
      s'.trace.count .openChunk = 0 ∧ s'.trace.count .closeChunk = 0 ∧
      s'.trace.count .lockViewport = 0 ∧ s'.trace.count .unlockViewport = 0 ∧
      0 < s'.trace.countP Event.isMutation := by
  have hp : pyTruthy (some ((3 : ℚ) - 1)) = true := by
    norm_num [pyTruthy]
  simp only [ikfk_switch, ikfk_switch_main, set_ikfk_switch, set_ik_to_fk_switch,
    get_ik_to_fk_switch, get_world_matrix, xformRotValue, doCurrentTime, doSetAttr,
    doSetKeyframe, doKeyChannel, doXformR, mutStep, create_transform_keys,
    keyObjsLoop, keyChansLoop, chanPairs, flagsR, check_fk_rotate_order,
    check_rotate_order, check_node_type, validate_ikfk_switch_data, checkModeEntry,
    checkControlEntry, checkAttrEntry, bindE_ok, bindE_error, env0, dIkfk0, s0, hp,
    worldOf, worldAt, updA, updO, List.filter, reduceIte, reduceCtorEq]
  refine ⟨_, rfl, ?_, ?_, ?_, ?_, ?_⟩ <;> decide

/-- The events of the pose-gathering loop: per sampled time, a time
edit, the source-driver write and its key. -/
def captureTrace (sp : Plug) (sv : ℚ) : List ℚ → List Event
  | [] => []
  | k :: ks => .curTime k :: .setAttr sp sv :: .setKeyAttr sp k sv :: captureTrace sp sv ks

/-- The pose the gathering loop captures at time `k` under attribute
values `A` (overrides cleared by the preceding time edit). -/
def bakedPose (env : Env) (A : Plug → ℚ) (ctl : Node) (k : ℚ) : Pose :=
  env.anim k A ctl

/-- The events of one interior re-key step. -/
def interiorStepTrace (tp : Plug) (tv : ℚ) (ctl : Node) (k : ℚ) (m : Pose) : List Event :=
  .curTime k :: .setAttr tp tv :: .setKeyAttr tp k tv ::
  .xformT ctl m.pos :: .xformR ctl m.rot :: keyChanTrace ctl k

/-- The events of the interior re-key loop. -/
def interiorTrace (tp : Plug) (tv : ℚ) (ctl : Node) (f : ℚ → Pose) : List ℚ → List Event
  | [] => []
  | k :: ks => interiorStepTrace tp tv ctl k (f k) ++ interiorTrace tp tv ctl f ks

/-- The events of the reversed tail close: at the last windowed key the
*source* driver is set and keyed and the end-of-window pose applied; at
the frame before, the *target* driver is set and keyed and the
frame-before pose applied — source/target reversed relative to the head
boundary switch. -/
def tailCloseTrace (ctl : Node) (sp : Plug) (sv : ℚ) (tp : Plug) (tv : ℚ)
    (last : ℚ) (endM prevM : Pose) : List Event :=
  (.curTime last :: .setAttr sp sv :: .setKeyAttr sp last sv ::
   .xformT ctl endM.pos :: .xformR ctl endM.rot :: keyChanTrace ctl last)
  ++ (.curTime (last - 1) :: .setAttr tp tv :: .setKeyAttr tp (last - 1) tv ::
      .xformT ctl prevM.pos :: .xformR ctl prevM.rot :: keyChanTrace ctl (last - 1))

/-- setting the same attribute to the same value twice is one update -/
theorem updA_idem (f : Plug → ℚ) (p : Plug) (v : ℚ) :
    updA (updA f p v) p v = updA f p v := by
  funext q
  by_cases h : q = p <;> simp [updA, h]

/-- reading back the attribute just set -/
theorem updA_self (f : Plug → ℚ) (p : Plug) (v : ℚ) : updA f p v p = v := by
  simp [updA]

theorem getLastD_irrel : ∀ (l : List ℚ), l ≠ [] → ∀ d₁ d₂ : ℚ, l.getLastD d₁ = l.getLastD d₂ := by
  intro l
  induction l with
  | nil => intro h; exact absurd rfl h
  | cons a l ih =>
    intro _ d₁ d₂
    cases l with
    | nil => rfl
    | cons b l' => simpa using ih (by simp) d₁ d₂

theorem getLastD_tail {l : List ℚ} (h : 2 ≤ l.length) (d : ℚ) :
    l.tail.getLastD d = l.getLastD d := by
  cases l with
  | nil => simp at h
  | cons a l' =>
    cases l' with
    | nil => simp at h
    | cons b l'' => simp [List.getLastD_cons]

theorem zip_self_map {α β : Type} : ∀ (l : List α) (f : α → β),
    l.zip (l.map f) = l.map (fun a => (a, f a)) := by
  intro l f
  induction l with
  | nil => rfl
  | cons a l ih => simp [ih]

/-- Closed form of the gathering loop on a fail-free host: the final
state holds the time cursor at the last sampled key, the source driver
set, overrides cleared, and the capture events appended; the gathered
`matrixData` is the rig pose at each key under the source-set attribute
values. -/
theorem captureLoop_run (env : Env) (sp : Plug) (sv : ℚ) (ctl : Node)
    (hF : env.failAt = none) (hT : env.isTransform ctl = true) :
    ∀ (ks : List ℚ) (s : SceneState), ks ≠ [] →
      ∃ n, captureLoop env sp sv ctl ks s = .ok
        ({ time := ks.getLastD 0, attrs := updA s.attrs sp sv,
           posOv := fun _ => none, rotOv := fun _ => none,
           trace := s.trace ++ captureTrace sp sv ks, muts := n },
         ks.map (fun k => some (bakedPose env (updA s.attrs sp sv) ctl k))) := by
  intro ks
  induction ks with
  | nil => intro s h; exact absurd rfl h
  | cons k ks ih =>
    intro s _
    by_cases hks : ks = []
    · subst hks
      refine ⟨s.muts + 1 + 1 + 1, ?_⟩
      simp [captureLoop, doCurrentTime, doSetAttr, doSetKeyframe, mutStep, hF,
        get_world_matrix, hT, worldOf, worldAt, bakedPose, captureTrace, updA]
    · obtain ⟨n, hrec⟩ := ih
        { time := k, attrs := updA s.attrs sp sv,
          posOv := fun _ => none, rotOv := fun _ => none,
          trace := s.trace ++ [.curTime k, .setAttr sp sv, .setKeyAttr sp k sv],
          muts := s.muts + 1 + 1 + 1 } hks
      simp only [updA_idem] at hrec
      refine ⟨n, ?_⟩
      have hl : (k :: ks).getLastD 0 = ks.getLastD 0 := by
        rw [List.getLastD_cons]
        exact getLastD_irrel ks hks k 0
      simp only [captureLoop, doCurrentTime, doSetAttr, doSetKeyframe, mutStep, hF,
        reduceCtorEq, reduceIte, bindE_ok, get_world_matrix, hT, if_true, if_false,
        worldOf, worldAt, id_eq, Option.getD, updA_self,
        List.append_assoc, List.cons_append, List.nil_append, List.singleton_append]
      rw [hrec]
      simp only [List.getLastD_eq_getLast?] at hl
      simp [bindE_ok, captureTrace, bakedPose, hl, List.append_assoc]

/-- Closed form of the interior re-key loop on a fail-free host, for an
existing transform control: it succeeds and appends exactly the
per-key re-key events. -/
theorem interiorLoop_run (env : Env) (tp : Plug) (tv : ℚ) (ctl : Node)
    (hF : env.failAt = none) (hT : env.isTransform ctl = true)
    (hE : env.objExists ctl = true) :
    ∀ (ks : List ℚ) (f : ℚ → Pose) (s : SceneState),
      ∃ t, interiorLoop env tp tv ctl (ks.map (fun k => (k, some (f k)))) s = .ok t ∧
        t.trace = s.trace ++ interiorTrace tp tv ctl f ks := by
  intro ks f
  induction ks with
  | nil => intro s; exact ⟨s, rfl, by simp [interiorTrace]⟩
  | cons k ks ih =>
    intro s
    obtain ⟨t, hrec, htr⟩ := ih
      { time := k, attrs := updA s.attrs tp tv,
        posOv := updO (fun _ => none) ctl (f k).pos,
        rotOv := updO (fun _ => none) ctl (f k).rot,
        trace := s.trace ++ ([.curTime k, .setAttr tp tv, .setKeyAttr tp k tv,
          .xformT ctl (f k).pos, .xformR ctl (f k).rot] ++ keyChanTrace ctl k),
        muts := s.muts + 1 + 1 + 1 + 1 + 1 + 1 + 1 + 1 + 1 + 1 + 1 }
    refine ⟨t, ?_, ?_⟩
    · simp only [keyChanTrace, List.append_assoc, List.cons_append,
        List.nil_append] at hrec
      simp only [List.map_cons, interiorLoop, doCurrentTime, doSetAttr, doSetKeyframe,
        doKeyChannel, doXformT, doXformR, mutStep, hF, reduceCtorEq, reduceIte,
        bindE_ok, apply_world_matrix, hT, if_true, if_false, create_transform_keys,
        keyObjsLoop, keyChansLoop, chanPairs, flagsTR, hE, List.filter,
        List.isEmpty_cons, Bool.false_eq_true, id_eq, updA_self, Option.getD_none,
        List.append_assoc, List.cons_append, List.nil_append, List.singleton_append]
      rw [hrec]
    · rw [htr]
      simp [interiorTrace, interiorStepTrace, List.append_assoc]

/-- The full event trace of a strictly-inside bake-at-keyframes branch
run over windowed keys `w` from entry attribute values `a`: the capture
pass over every windowed key, the two time edits of the end-of-window
pose capture, the head boundary switch (source driver then target
driver, the original order), the reversed tail close, and the interior
re-keys over the remaining keys. -/
def c3Trace (env : Env) (ctl : Node) (sp : Plug) (sv : ℚ) (tp : Plug) (tv : ℚ)
    (a : Plug → ℚ) (w : List ℚ) : List Event :=
  captureTrace sp sv w
  ++ [.curTime (w.getLastD 0), .curTime (w.getLastD 0 - 1)]
  ++ ssTrace ctl sp sv tp tv w.headI (bakedPose env (updA a sp sv) ctl w.headI)
  ++ tailCloseTrace ctl sp sv tp tv (w.getLastD 0)
      (bakedPose env (updA a sp sv) ctl (w.getLastD 0))
      (bakedPose env (updA a sp sv) ctl (w.getLastD 0 - 1))
  ++ interiorTrace tp tv ctl (bakedPose env (updA a sp sv) ctl) w.tail.dropLast

/-- Closed form of the whole bake-keyframes branch on a fail-free host
when the window is strictly inside the reference range and holds at
least two keys: it succeeds and appends exactly `c3Trace`. -/
theorem bake_keyframes_branch_run (env : Env) (ctl : Node) (sp : Plug) (sv : ℚ)
    (tp : Plug) (tv : ℚ) (ref_keys w : List ℚ) (s : SceneState)
    (hF : env.failAt = none) (hT : env.isTransform ctl = true)
    (hE : env.objExists ctl = true) (hlen : 2 ≤ w.length)
    (hhead : ref_keys.headI < w.headI) (hlast : w.getLastD 0 < ref_keys.getLastD 0) :
    ∃ t, bake_keyframes_branch env ctl sp sv tp tv ref_keys w s = .ok t ∧
      t.trace = s.trace ++ c3Trace env ctl sp sv tp tv s.attrs w := by
  have hne : w ≠ [] := by intro h; subst h; simp at hlen
  have hie : w.isEmpty = false := by simpa [List.isEmpty_iff] using hne
  have h1 : 1 < w.length := by omega
  have htne : w.tail ≠ [] := by
    have hl := List.length_tail w
    intro hc
    rw [hc] at hl
    simp at hl
    omega
  have htl : w.tail.getLastD 0 = w.getLastD 0 := getLastD_tail hlen 0
  have h3 : w.tail.getLastD 0 < ref_keys.getLastD 0 := by rw [htl]; exact hlast
  obtain ⟨n, hcap⟩ := captureLoop_run env sp sv ctl hF hT w s hne
  have hss := fun (x : SceneState) =>
    set_space_switch_run env w.headI ctl sp sv tp tv x hF hT hE
  simp only [bake_keyframes_branch, hie, Bool.false_eq_true, if_false, hcap, bindE_ok]
  rw [if_pos ⟨h1, hlast⟩]
  simp only [doCurrentTime, doSetAttr, doSetKeyframe, doKeyChannel, doXformT, doXformR,
    mutStep, hF, reduceCtorEq, reduceIte, bindE_ok, get_world_matrix, apply_world_matrix,
    hT, hE, create_transform_keys, keyObjsLoop, keyChansLoop, chanPairs, flagsTR,
    worldOf, worldAt, id_eq, updA_self, updA_idem, Option.getD_none, List.filter,
    List.isEmpty_cons, List.append_assoc, List.cons_append, List.nil_append,
    List.singleton_append]
  rw [if_pos hhead]
  simp only [hss, bindE_ok, updA_idem, updA_self, id_eq, Option.getD_none,
    List.append_assoc, List.cons_append, List.nil_append, List.singleton_append]
  rw [if_pos ⟨htne, h3⟩]
  simp only [doCurrentTime, doSetAttr, doSetKeyframe, doKeyChannel, doXformT, doXformR,
    mutStep, hF, reduceCtorEq, reduceIte, bindE_ok, get_world_matrix, apply_world_matrix,
    hT, hE, create_transform_keys, keyObjsLoop, keyChansLoop, chanPairs, flagsTR,
    worldOf, worldAt, id_eq, updA_self, updA_idem, Option.getD_none, List.filter,
    List.isEmpty_cons, Bool.false_eq_true, List.append_assoc, List.cons_append,
    List.nil_append, List.singleton_append]
  have hzip : w.tail.dropLast.zip
      ((List.map (fun k => some (bakedPose env (updA s.attrs sp sv) ctl k)) w).tail.dropLast)
      = w.tail.dropLast.map
          (fun k => (k, some (bakedPose env (updA s.attrs sp sv) ctl k))) := by
    rw [← List.map_tail, ← List.map_dropLast]
    exact zip_self_map _ _
  rw [hzip]
  obtain ⟨t, hint, htr⟩ := interiorLoop_run env tp tv ctl hF hT hE w.tail.dropLast
    (bakedPose env (updA s.attrs sp sv) ctl)
    { time := w.tail.getLastD 0 - 1, attrs := updA (updA (updA (updA s.attrs sp sv) tp tv) sp sv) tp tv,
      posOv := updO (fun _ => none) ctl (env.anim (w.getLastD 0 - 1) (updA s.attrs sp sv) ctl).pos,
      rotOv := updO (fun _ => none) ctl (env.anim (w.getLastD 0 - 1) (updA s.attrs sp sv) ctl).rot,
      trace :=
        s.trace ++
          (captureTrace sp sv w ++
            Event.curTime (w.getLastD 0) ::
              Event.curTime (w.getLastD 0 - 1) ::
                (ssTrace ctl sp sv tp tv w.headI (env.anim w.headI (updA s.attrs sp sv) ctl) ++
                  [Event.curTime (w.tail.getLastD 0), Event.setAttr sp sv,
                    Event.setKeyAttr sp (w.tail.getLastD 0) sv,
                    Event.xformT ctl (env.anim (w.getLastD 0) (updA s.attrs sp sv) ctl).pos,
                    Event.xformR ctl (env.anim (w.getLastD 0) (updA s.attrs sp sv) ctl).rot,
                    Event.keyChannel ctl "translateX" (w.tail.getLastD 0),
                    Event.keyChannel ctl "translateY" (w.tail.getLastD 0),
                    Event.keyChannel ctl "translateZ" (w.tail.getLastD 0),
                    Event.keyChannel ctl "rotateX" (w.tail.getLastD 0),
                    Event.keyChannel ctl "rotateY" (w.tail.getLastD 0),
                    Event.keyChannel ctl "rotateZ" (w.tail.getLastD 0),
                    Event.curTime (w.tail.getLastD 0 - 1),
                    Event.setAttr tp tv, Event.setKeyAttr tp (w.tail.getLastD 0 - 1) tv,
                    Event.xformT ctl (env.anim (w.getLastD 0 - 1) (updA s.attrs sp sv) ctl).pos,
                    Event.xformR ctl (env.anim (w.getLastD 0 - 1) (updA s.attrs sp sv) ctl).rot,
                    Event.keyChannel ctl "translateX" (w.tail.getLastD 0 - 1),
                    Event.keyChannel ctl "translateY" (w.tail.getLastD 0 - 1),
                    Event.keyChannel ctl "translateZ" (w.tail.getLastD 0 - 1),
                    Event.keyChannel ctl "rotateX" (w.tail.getLastD 0 - 1),
                    Event.keyChannel ctl "rotateY" (w.tail.getLastD 0 - 1),
                    Event.keyChannel ctl "rotateZ" (w.tail.getLastD 0 - 1)])),
      muts :=
        n + 1 + 1 + 21 + 1 + 1 + 1 + 1 + 1 + 1 + 1 + 1 + 1 + 1 + 1 + 1 + 1 + 1 + 1 + 1 + 1 + 1 + 1 + 1 + 1 + 1 }
  refine ⟨t, hint, ?_⟩
  rw [htr]
  simp only [c3Trace, tailCloseTrace, keyChanTrace, bakedPose, htl, List.append_assoc,
    List.cons_append, List.nil_append, List.singleton_append]

/-- C3 (amended): a bake-at-existing-keyframes space switch whose
windowed keyframe set lies strictly inside the control's full keyframe
range — first windowed key strictly after the first reference key, last
windowed key strictly before the last reference key — and holds at
least two keyframes emits, inside the undo/viewport bracket, exactly
the capture pass, the end-of-window pose capture, the head boundary
switch at the first windowed keyframe with the original source/target
driver order, the reversed tail close at the last windowed keyframe
(source driver set and keyed at the last key, target driver at the
frame before — source/target reversed relative to the head), the
interior re-keys of every remaining windowed keyframe in place with
only the target driver set, and the time-cursor restore.  The frozen
claim asserts the two boundary switches for every strictly-inside
window; a singleton window satisfies its premise but performs only the
head switch, so the amendment adds the two-key requirement. -/
theorem c3_window_truncation (env : Env) (d : SpaceData) (ui : SpaceUI) (s : SceneState)
    (src tgt : AttrVal) (w : List ℚ)
    (hF : env.failAt = none) (hT : env.isTransform d.control = true)
    (hE : env.objExists d.control = true)
    (hval : validate_space_switch_data env d = true)
    (hsa : d.source = some src) (hta : d.target = some tgt)
    (hmode : ui.mode = BakeMode.bakeKeyframes)
    (hw : windowedOf env [d.control] ui = w)
    (hlen : 2 ≤ w.length)
    (hhead : (sortTimes (env.keyTimes [d.control]).dedup).headI < w.headI)
    (hlast : w.getLastD 0 < (sortTimes (env.keyTimes [d.control]).dedup).getLastD 0) :
    (space_switch env d ui s).trace = s.trace ++
      [.openChunk, .lockViewport]
      ++ c3Trace env d.control src.plug src.value tgt.plug tgt.value s.attrs w
      ++ [.curTime s.time, .unlockViewport, .closeChunk] := by
  obtain ⟨t, hbr, htr⟩ := bake_keyframes_branch_run env d.control src.plug src.value
    tgt.plug tgt.value (sortTimes (env.keyTimes [d.control]).dedup) w
    { s with trace := s.trace ++ [.openChunk, .lockViewport] } hF hT hE hlen hhead hlast
  simp only [windowedOf] at hw
  simp only [space_switch, hval, if_true, space_switch_body, hsa, hta, hmode,
    SceneState.withEvent, List.append_assoc, List.cons_append, List.nil_append,
    List.singleton_append, hw, reduceCtorEq, reduceIte]
  rw [hbr]
  simp only [bindE_ok, doCurrentTime, mutStep, hF, reduceCtorEq, reduceIte]
  rw [htr]
  simp [List.append_assoc]

/-- A host with four keyframes, so a window can be strictly inside the
keyed range and still hold two keys. -/
def env2 : Env := { env0 with keyTimes := fun _ => [0, 5, 7, 10] }

/-- a bake-at-keyframes run windowed to `[4, 8]` -/
def uiC3 : SpaceUI := ⟨.bakeKeyframes, true, 4, 8⟩

/-- Witness for C3: baking the window `[4, 8]` over keys `{0,5,7,10}`
selects `[5, 7]`, strictly inside the keyed range. -/
theorem c3_witness :
    windowedOf env2 [dSpace0.control] uiC3 = [5, 7] ∧
    (sortTimes ((env2.keyTimes [dSpace0.control]).dedup)).headI < ([(5:ℚ), 7]).headI ∧
    ([(5:ℚ), 7]).getLastD 0 <
      (sortTimes ((env2.keyTimes [dSpace0.control]).dedup)).getLastD 0 ∧
    (space_switch env2 dSpace0 uiC3 s0).trace = s0.trace ++
      [.openChunk, .lockViewport]
      ++ c3Trace env2 dSpace0.control ⟨"a", "x"⟩ 0 ⟨"b", "y"⟩ 1 s0.attrs [5, 7]
      ++ [.curTime s0.time, .unlockViewport, .closeChunk] := by
  have hsorted : sortTimes ((env2.keyTimes [dSpace0.control]).dedup) = [0, 5, 7, 10] := by
    norm_num [sortTimes, insertSorted, env2, env0, dSpace0]
  have hw : windowedOf env2 [dSpace0.control] uiC3 = [5, 7] := by
    norm_num [windowedOf, hsorted, uiC3]
  have hhead : (sortTimes ((env2.keyTimes [dSpace0.control]).dedup)).headI <
      ([(5:ℚ), 7]).headI := by
    rw [hsorted]; norm_num
  have hlast : ([(5:ℚ), 7]).getLastD 0 <
      (sortTimes ((env2.keyTimes [dSpace0.control]).dedup)).getLastD 0 := by
    rw [hsorted]; norm_num [List.getLastD_cons]
  exact ⟨hw, hhead, hlast,
    c3_window_truncation env2 dSpace0 uiC3 s0 ⟨⟨"a", "x"⟩, 0⟩ ⟨⟨"b", "y"⟩, 1⟩ [5, 7]
      rfl rfl rfl rfl rfl rfl rfl hw (by norm_num) hhead hlast⟩

/-- Counterexample to C3 as frozen: over keys `{0, 5, 10}` the window
`[4, 6]` selects the singleton `[5]`, which is strictly inside the keyed
range (5 is after the first reference key 0 and before the last
reference key 10), yet the run emits exactly one pose write
(`xform` translation event) — the head boundary switch alone applies
one captured pose, while the claimed head-switch-plus-reversed-tail-
close would apply three.  The `len(keyframes) > 1` guard skips the
end-of-window capture and the head switch consumes the only key, so no
reversed tail close happens. -/
theorem c3_counterexample :
    windowedOf env0 [dSpace0.control] ⟨.bakeKeyframes, true, 4, 6⟩ = [5] ∧
    (sortTimes ((env0.keyTimes [dSpace0.control]).dedup)).headI < ([(5:ℚ)]).headI ∧
    ([(5:ℚ)]).getLastD 0 <
      (sortTimes ((env0.keyTimes [dSpace0.control]).dedup)).getLastD 0 ∧
    (space_switch env0 dSpace0 ⟨.bakeKeyframes, true, 4, 6⟩ s0).trace.countP
      Event.isXformT = 1 := by
  have hsorted : sortTimes ((env0.keyTimes [dSpace0.control]).dedup) = [0, 5, 10] := by
    norm_num [sortTimes, insertSorted, env0, dSpace0]
  have hw : windowedOf env0 [dSpace0.control] ⟨.bakeKeyframes, true, 4, 6⟩ = [5] := by
    norm_num [windowedOf, hsorted]
  refine ⟨hw, by rw [hsorted]; norm_num, by rw [hsorted]; norm_num [List.getLastD_cons], ?_⟩
  have hval : validate_space_switch_data env0 dSpace0 = true := rfl
  have hsa : dSpace0.source = some ⟨⟨"a", "x"⟩, 0⟩ := rfl
  have hta : dSpace0.target = some ⟨⟨"b", "y"⟩, 1⟩ := rfl
  simp only [windowedOf, reduceIte] at hw
  simp only [space_switch, hval, if_true, space_switch_body, hsa, hta, reduceIte,
    bake_keyframes_branch, hw, hsorted, List.isEmpty_cons, Bool.false_eq_true, if_false]
  simp only [captureLoop, interiorLoop, set_space_switch, doCurrentTime, doSetAttr,
    doSetKeyframe, doKeyChannel, doXformT, doXformR, mutStep, env0, reduceCtorEq,
    reduceIte, bindE_ok, get_world_matrix, apply_world_matrix, create_transform_keys,
    keyObjsLoop, keyChansLoop, chanPairs, flagsTR, worldOf, worldAt, id_eq,
    updA_self, updA_idem, Option.getD_none, List.filter, List.isEmpty_nil,
    List.isEmpty_cons, List.tail_cons, List.length_cons, List.length_nil,
    List.getLastD_cons, List.getLastD_nil, List.headI, SceneState.withEvent, s0,
    List.zip_nil_left, List.zip_nil_right, List.map_cons, List.map_nil,
    List.dropLast_single, ne_eq, not_true_eq_false, Bool.false_eq_true,
    List.append_assoc, List.cons_append, List.nil_append, List.singleton_append]
  decide

end SpaceSwitchTool
